import Mathlib

/-!
Verification development for the geometry/coordinate-transform engine of the
bcdi repository.  The definitions below are a shallow embedding of
`bcdi/experiment/experiment_utils.py`: property setters, the `Setup` /
`SetupPostprocessing` attribute state, the per-beamline construction matrix
(`mymatrix`) of `update_coords`, the voxel-size calculator, the grid
conventions of the two resamplers, and the `Detector.mask_detector` gap
table.  Python exceptions are modelled with `Except PyErr`; `None`-able
attributes with `Option`; machine floats with `ℝ` (and `ℚ` for the purely
rational detector-mask arithmetic).
-/

namespace BcdiVerify

/-- Kinds of Python exceptions that the embedded code can raise. -/
inductive PyErr
  | typeError
  | valueError
  | attributeError
  | assertionError
  | linAlgError
  deriving DecidableEq, Repr

/-- The beamline names accepted by the `Setup.beamline` setter
(experiment_utils.py line 79). -/
inductive Beamline
  | ID01
  | SIXS2018
  | SIXS2019
  | APS34ID
  | P10
  | CRISTAL
  | NANOMAX
  deriving DecidableEq, Repr, Fintype

/-- The values accepted by the `rocking_angle` setter (line 230). -/
inductive RockingAngle
  | outofplane
  | inplane
  deriving DecidableEq, Repr

/-- Vertical detector orientation flag, the two string values returned by the
`detector_ver` property. -/
inductive DetVer
  | zplus
  | zminus
  deriving DecidableEq, Repr

/-- Horizontal detector orientation flag, the two string values returned by the
`detector_hor` property. -/
inductive DetHor
  | yplus
  | yminus
  deriving DecidableEq, Repr

/-- Property `Setup.detector_hor` (lines 84-95): beamlines where the detector is viewed
from downstream get the value `y+`, the rest (`P10`, `34ID`) get `y-`. -/
def detectorHor (b : Beamline) : DetHor :=
  if b = .ID01 ∨ b = .SIXS2018 ∨ b = .SIXS2019 ∨ b = .CRISTAL ∨ b = .NANOMAX then
    .yplus
  else
    .yminus

/-- Property `Setup.detector_ver` (lines 97-107): the membership test lists all seven
supported beamlines, so the property returns `z-` on that set and `z+` only on
the (unreachable) complement. -/
def detectorVer (b : Beamline) : DetVer :=
  if b = .ID01 ∨ b = .SIXS2018 ∨ b = .SIXS2019 ∨ b = .CRISTAL ∨ b = .NANOMAX ∨
      b = .P10 ∨ b = .APS34ID then
    .zminus
  else
    .zplus

/-- Property `Setup.outofplane_coeff` (lines 355-370): `ver_coeff` is `+1` for `z+` and
`-1` for `z-`; the returned coefficient is `-1 * ver_coeff`. -/
def outofplaneCoeff (b : Beamline) : ℤ :=
  let verCoeff : ℤ := if detectorVer b = .zplus then 1 else (-1); (-1) * verCoeff

/-- C10: for every beamline in the supported set, `detector_ver` is `z-`, hence
`Setup.outofplane_coeff` returns `+1`; the value `-1` is never returned. -/
theorem outofplaneCoeff_constant_one :
    ∀ b : Beamline, detectorVer b = .zminus ∧ outofplaneCoeff b = 1 := by
  intro b
  cases b <;> decide

/-- Setter of `Setup.energy` (lines 141-150): `None` is stored unchanged, a
non-positive number raises `ValueError` at the moment of assignment, a positive
number is stored.  (The `isinstance` guard that raises `TypeError` for
non-numbers is outside this numeric embedding.) -/
noncomputable def energySetter (value : Option ℝ) : Except PyErr (Option ℝ) :=
  match value with
  | none => .ok none
  | some v => if v ≤ 0 then .error .valueError else .ok (some v)

/-- Setter of `Setup.distance` (lines 164-173), same validation as the energy
setter. -/
noncomputable def distanceSetter (value : Option ℝ) : Except PyErr (Option ℝ) :=
  match value with
  | none => .ok none
  | some v => if v ≤ 0 then .error .valueError else .ok (some v)

/-- Setter of `Setup.pixel_x` (lines 242-251). -/
noncomputable def pixelXSetter (value : Option ℝ) : Except PyErr (Option ℝ) :=
  match value with
  | none => .ok none
  | some v => if v ≤ 0 then .error .valueError else .ok (some v)

/-- Setter of `Setup.pixel_y` (lines 260-269). -/
noncomputable def pixelYSetter (value : Option ℝ) : Except PyErr (Option ℝ) :=
  match value with
  | none => .ok none
  | some v => if v ≤ 0 then .error .valueError else .ok (some v)

/-- Euclidean norm of a list of reals, as computed by `np.linalg.norm` on a
1-D vector. -/
noncomputable def norm3 (v : List ℝ) : ℝ :=
  Real.sqrt ((v.map fun x => x * x).sum)

/-- Setter of `Setup.beam_direction` (lines 116-124): a tuple that does not
have exactly three numeric components raises `ValueError`; a zero-norm vector
raises `ValueError`; otherwise the normalized vector is stored. -/
noncomputable def beamDirectionSetter (value : List ℝ) : Except PyErr (List ℝ) :=
  if value.length ≠ 3 then .error .valueError
  else if norm3 value = 0 then .error .valueError
  else .ok (value.map fun x => x / norm3 value)

/-- C6: assigning `energy ≤ 0`, `distance ≤ 0` or a pixel size `≤ 0` fails
immediately inside the corresponding property setter with `ValueError` (the
error the specification taxonomy calls `InvalidParameterError`), and assigning
`beam_direction = (0,0,0)` fails the same way.  Because `Setup.__init__`
assigns through these properties, the failure happens at assignment time and
is never deferred. -/
theorem setters_reject_invalid :
    (∀ v : ℝ, v ≤ 0 → energySetter (some v) = .error .valueError) ∧
    (∀ v : ℝ, v ≤ 0 → distanceSetter (some v) = .error .valueError) ∧
    (∀ v : ℝ, v ≤ 0 → pixelXSetter (some v) = .error .valueError) ∧
    (∀ v : ℝ, v ≤ 0 → pixelYSetter (some v) = .error .valueError) ∧
    beamDirectionSetter [0, 0, 0] = .error .valueError := by
  refine ⟨?_, ?_, ?_, ?_, ?_⟩
  · intro v hv
    simp [energySetter, hv]
  · intro v hv
    simp [distanceSetter, hv]
  · intro v hv
    simp [pixelXSetter, hv]
  · intro v hv
    simp [pixelYSetter, hv]
  · simp [beamDirectionSetter, norm3]

/-- Witness for C6 at concrete invalid inputs. -/
theorem setters_reject_invalid_witness :
    energySetter (some (-1)) = .error .valueError ∧
    distanceSetter (some 0) = .error .valueError ∧
    pixelXSetter (some (-2)) = .error .valueError ∧
    pixelYSetter (some 0) = .error .valueError :=
  ⟨setters_reject_invalid.1 (-1) (by norm_num),
   setters_reject_invalid.2.1 0 le_rfl,
   setters_reject_invalid.2.2.1 (-2) (by norm_num),
   setters_reject_invalid.2.2.2.1 0 le_rfl⟩

/-- Python floor division `a // b`. -/
def pyFloorDiv (a b : ℤ) : ℤ := Int.fdiv a b

/-- Element `s` of `np.arange(-n // 2, n // 2, 1)`, the centered integer grid
built by `Setup.detector_frame` for its meshgrid (line 420) and for the
interpolator axes (line 429).  In Python, `-n // 2` parses as `(-n) // 2`,
floor division of `-n`. -/
def detectorFrameGrid (n : ℕ) (s : ℤ) : ℤ :=
  pyFloorDiv (-(n : ℤ)) 2 + s

/-- Element `s` of `np.arange(-n // 2, n // 2, 1)`, the centered integer grid
built by `Setup.orthogonalize` for its meshgrid (line 524) and for the
interpolator axes (line 538). -/
def orthogonalizeGrid (n : ℕ) (s : ℤ) : ℤ :=
  pyFloorDiv (-(n : ℤ)) 2 + s

/-- C7, counterexample: for the odd axis length 5, the first grid point is
`(-5) // 2 = -3`, not `-(5 // 2) = -2` as the claim words it; so the grid does
not start at `-(n//2)`. -/
theorem grid_start_not_neg_half_floor :
    orthogonalizeGrid 5 0 = -3 ∧ -((5 : ℤ) / 2) = -2 ∧ orthogonalizeGrid 5 0 ≠ -((5 : ℤ) / 2) := by
  decide

/-- C7, amended: for every axis length `n`, both resamplers build the same
centered integer grid; it consists of `n` consecutive integers (the `arange`
spans `n//2 - (-n)//2 = n` steps of 1) starting at `(-n) // 2 = -⌈n/2⌉`, which
is `-(n//2) - 1` for odd `n` (asymmetric about zero) and `-(n//2)` for even
`n`. -/
theorem grids_agree_and_start_at_neg_ceil :
    ∀ n : ℕ,
      (∀ s : ℤ, detectorFrameGrid n s = orthogonalizeGrid n s) ∧
      orthogonalizeGrid n 0 = -(((n : ℤ) + 1) / 2) ∧
      (∀ s : ℤ, orthogonalizeGrid n (s + 1) = orthogonalizeGrid n s + 1) ∧
      (n : ℤ) / 2 - orthogonalizeGrid n 0 = n := by
  intro n
  refine ⟨fun s => rfl, ?_, fun s => by simp [orthogonalizeGrid]; ring, ?_⟩
  · show pyFloorDiv (-(n : ℤ)) 2 + 0 = _
    rw [pyFloorDiv, Int.fdiv_eq_ediv _ (by norm_num)]
    omega
  · show (n : ℤ) / 2 - (pyFloorDiv (-(n : ℤ)) 2 + 0) = n
    rw [pyFloorDiv, Int.fdiv_eq_ediv _ (by norm_num)]
    omega

open Real (cos sin pi)

/-- Assemble a 3x3 matrix from its three columns, matching the slice
assignments `mymatrix[:, 0] = ...`, `mymatrix[:, 1] = ...`,
`mymatrix[:, 2] = ...` in `update_coords`. -/
def colMat (c0 c1 c2 : Fin 3 → ℝ) : Matrix (Fin 3) (Fin 3) ℝ :=
  Matrix.of ![![c0 0, c1 0, c2 0], ![c0 1, c1 1, c2 1], ![c0 2, c1 2, c2 2]]

/-- Determinant of a matrix given by columns, expanded. -/
theorem det_colMat (c0 c1 c2 : Fin 3 → ℝ) :
    (colMat c0 c1 c2).det =
      c0 0 * c1 1 * c2 2 - c0 0 * c2 1 * c1 2 - c1 0 * c0 1 * c2 2 +
        c1 0 * c2 1 * c0 2 + c2 0 * c0 1 * c1 2 - c2 0 * c1 1 * c0 2 := by
  simp [colMat, Matrix.det_fin_three]

/-- The raw construction matrix `mymatrix` of `update_coords`
(experiment_utils.py lines 594-841; the `SetupPostprocessing.update_coords`
block at lines 1253-1501 is textually identical).  Inputs are the already
radian-converted angles and the nanometer-converted lengths; `mymatrix` starts
as `np.zeros((3, 3))` and a branch, when one matches the
`(beamline, rocking_angle, grazing == 0)` combination, overwrites its three
columns; combinations without a branch leave the zero matrix. -/
noncomputable def buildMymatrix (bl : Beamline) (rock : Option RockingAngle)
    (grazing outofplane inplane tilt : ℝ) (nbz nby nbx : ℕ)
    (lambdaz pixelX pixelY distance : ℝ) : Matrix (Fin 3) (Fin 3) ℝ :=
  match bl with
  | .ID01 =>
    match rock with
    | some .outofplane =>
        colMat
          ((2 * pi * nbx / lambdaz) •
            ![pixelX * cos inplane, 0, pixelX * sin inplane])
          ((2 * pi * nby / lambdaz) •
            ![-pixelY * sin inplane * sin outofplane, -pixelY * cos outofplane,
              pixelY * cos inplane * sin outofplane])
          ((2 * pi * nbz / lambdaz) •
            ![0, tilt * distance * (1 - cos inplane * cos outofplane),
              tilt * distance * sin outofplane])
    | some .inplane =>
        if grazing = 0 then
          colMat
            ((2 * pi * nbx / lambdaz) •
              ![pixelX * cos inplane, 0, pixelX * sin inplane])
            ((2 * pi * nby / lambdaz) •
              ![-pixelY * sin inplane * sin outofplane, -pixelY * cos outofplane,
                pixelY * cos inplane * sin outofplane])
            ((2 * pi * nbz / lambdaz) •
              ![-tilt * distance * (1 - cos inplane * cos outofplane), 0,
                tilt * distance * sin inplane * cos outofplane])
        else
          colMat
            ((2 * pi * nbx / lambdaz) •
              ![pixelX * cos inplane, 0, pixelX * sin inplane])
            ((2 * pi * nby / lambdaz) •
              ![-pixelY * sin inplane * sin outofplane, -pixelY * cos outofplane,
                pixelY * cos inplane * sin outofplane])
            ((2 * pi * nbz / lambdaz * tilt * distance) •
              ![sin grazing * sin outofplane +
                  cos grazing * (cos inplane * cos outofplane - 1),
                sin grazing * sin inplane * cos outofplane,
                cos grazing * sin inplane * cos outofplane])
    | none => 0
  | .P10 =>
    match rock with
    | some .outofplane =>
        colMat
          ((2 * pi * nbx / lambdaz) •
            ![-pixelX * cos inplane, 0, pixelX * sin inplane])
          ((2 * pi * nby / lambdaz) •
            ![pixelY * sin inplane * sin outofplane, -pixelY * cos outofplane,
              pixelY * cos inplane * sin outofplane])
          ((2 * pi * nbz / lambdaz) •
            ![0, tilt * distance * (1 - cos inplane * cos outofplane),
              tilt * distance * sin outofplane])
    | some .inplane =>
        if grazing = 0 then
          colMat
            ((2 * pi * nbx / lambdaz) •
              ![-pixelX * cos inplane, 0, pixelX * sin inplane])
            ((2 * pi * nby / lambdaz) •
              ![pixelY * sin inplane * sin outofplane, -pixelY * cos outofplane,
                pixelY * cos inplane * sin outofplane])
            ((2 * pi * nbz / lambdaz) •
              ![tilt * distance * (cos inplane * cos outofplane - 1), 0,
                -tilt * distance * sin inplane * cos outofplane])
        else
          colMat
            ((2 * pi * nbx / lambdaz) •
              ![-pixelX * cos inplane, 0, pixelX * sin inplane])
            ((2 * pi * nby / lambdaz) •
              ![pixelY * sin inplane * sin outofplane, -pixelY * cos outofplane,
                pixelY * cos inplane * sin outofplane])
            ((2 * pi * nbz / lambdaz * tilt * distance) •
              ![sin grazing * sin outofplane +
                  cos grazing * (cos inplane * cos outofplane - 1),
                -(sin grazing * sin inplane * cos outofplane),
                -(cos grazing * sin inplane * cos outofplane)])
    | none => 0
  | .NANOMAX =>
    match rock with
    | some .outofplane =>
        colMat
          ((2 * pi * nbx / lambdaz) •
            ![pixelX * cos inplane, 0, pixelX * sin inplane])
          ((2 * pi * nby / lambdaz) •
            ![pixelY * sin inplane * sin outofplane, pixelY * cos outofplane,
              -pixelY * cos inplane * sin outofplane])
          ((2 * pi * nbz / lambdaz) •
            ![0, tilt * distance * (1 - cos inplane * cos outofplane),
              tilt * distance * sin outofplane])
    | some .inplane =>
        if grazing = 0 then
          colMat
            ((2 * pi * nbx / lambdaz) •
              ![pixelX * cos inplane, 0, pixelX * sin inplane])
            ((2 * pi * nby / lambdaz) •
              ![pixelY * sin inplane * sin outofplane, pixelY * cos outofplane,
                -pixelY * cos inplane * sin outofplane])
            ((2 * pi * nbz / lambdaz) •
              ![-tilt * distance * (1 - cos inplane * cos outofplane), 0,
                tilt * distance * sin inplane * cos outofplane])
        else
          colMat
            ((2 * pi * nbx / lambdaz) •
              ![pixelX * cos inplane, 0, pixelX * sin inplane])
            ((2 * pi * nby / lambdaz) •
              ![pixelY * sin inplane * sin outofplane, pixelY * cos outofplane,
                -pixelY * cos inplane * sin outofplane])
            ((2 * pi * nbz / lambdaz * tilt * distance) •
              ![sin grazing * sin outofplane +
                  cos grazing * (cos inplane * cos outofplane - 1),
                sin grazing * sin inplane * cos outofplane,
                cos grazing * sin inplane * cos outofplane])
    | none => 0
  | .APS34ID =>
    match rock with
    | some .outofplane =>
        colMat
          ((2 * pi * nbx / lambdaz) •
            ![pixelX * cos inplane, 0, -pixelX * sin inplane])
          ((2 * pi * nby / lambdaz) •
            ![pixelY * sin inplane * sin outofplane, -pixelY * cos outofplane,
              pixelY * cos inplane * sin outofplane])
          ((2 * pi * nbz / lambdaz) •
            ![0, -tilt * distance * (1 - cos inplane * cos outofplane),
              -tilt * distance * sin outofplane])
    | some .inplane =>
        if grazing ≠ 0 then
          colMat
            ((2 * pi * nbx / lambdaz) •
              ![pixelX * cos inplane, 0, -pixelX * sin inplane])
            ((2 * pi * nby / lambdaz) •
              ![pixelY * sin inplane * sin outofplane, -pixelY * cos outofplane,
                pixelY * cos inplane * sin outofplane])
            ((2 * pi * nbz / lambdaz * tilt * distance) •
              ![sin grazing * sin outofplane +
                  cos grazing * (1 - cos inplane * cos outofplane),
                -(sin grazing * sin inplane * cos outofplane),
                cos grazing * sin inplane * cos outofplane])
        else
          colMat
            ((2 * pi * nbx / lambdaz) •
              ![pixelX * cos inplane, 0, -pixelX * sin inplane])
            ((2 * pi * nby / lambdaz) •
              ![pixelY * sin inplane * sin outofplane, -pixelY * cos outofplane,
                pixelY * cos inplane * sin outofplane])
            ((2 * pi * nbz / lambdaz) •
              ![tilt * distance * (1 - cos inplane * cos outofplane), 0,
                tilt * distance * sin inplane * cos outofplane])
    | none => 0
  | .SIXS2018 | .SIXS2019 =>
    match rock with
    | some .inplane =>
        if grazing ≠ 0 then
          colMat
            ((2 * pi * nbx / lambdaz * pixelX) •
              ![cos inplane, -(sin grazing * sin inplane),
                -(cos grazing * sin inplane)])
            ((2 * pi * nby / lambdaz * pixelY) •
              ![sin inplane * sin outofplane,
                sin grazing * cos inplane * sin outofplane -
                  cos grazing * cos outofplane,
                cos grazing * cos inplane * sin outofplane +
                  sin grazing * cos outofplane])
            ((2 * pi * nbz / lambdaz * tilt * distance) •
              ![cos grazing - cos inplane * cos outofplane,
                sin grazing * sin inplane * cos outofplane,
                cos grazing * sin inplane * cos outofplane])
        else
          colMat
            ((2 * pi * nbx / lambdaz) •
              ![pixelX * cos inplane, 0, -pixelX * sin inplane])
            ((2 * pi * nby / lambdaz) •
              ![pixelY * sin inplane * sin outofplane, -pixelY * cos outofplane,
                pixelY * cos inplane * sin outofplane])
            ((2 * pi * nbz / lambdaz) •
              ![tilt * distance * (1 - cos inplane * cos outofplane), 0,
                tilt * distance * sin inplane * cos outofplane])
    | _ => 0
  | .CRISTAL =>
    match rock with
    | some .outofplane =>
        colMat
          ((2 * pi * nbx / lambdaz) •
            ![pixelX * cos inplane, 0, -pixelX * sin inplane])
          ((2 * pi * nby / lambdaz) •
            ![pixelY * sin inplane * sin outofplane, -pixelY * cos outofplane,
              pixelY * cos inplane * sin outofplane])
          ((2 * pi * nbz / lambdaz) •
            ![0, tilt * distance * (1 - cos inplane * cos outofplane),
              tilt * distance * sin outofplane])
    | _ => 0

/-- Model of `np.linalg.inv` on a 3x3 matrix: raises `LinAlgError` (singular matrix)
exactly when the determinant vanishes, otherwise returns the inverse. -/
noncomputable def npLinalgInv3 (A : Matrix (Fin 3) (Fin 3) ℝ) :
    Except PyErr (Matrix (Fin 3) (Fin 3) ℝ) :=
  if A.det = 0 then .error .linAlgError else .ok A⁻¹

theorem nonsingID01oop :
    (buildMymatrix .ID01 (some .outofplane) 0 (pi / 2) 0 1 1 1 1 (2 * pi) 1 1 1).det ≠ 0 := by
  have h2 : 2 * Real.pi ≠ 0 := by positivity
  simp only [buildMymatrix]
  rw [det_colMat]
  simp [h2]

theorem nonsingID01inpZero :
    (buildMymatrix .ID01 (some .inplane) 0 0 (pi / 2) 1 1 1 1 (2 * pi) 1 1 1).det ≠ 0 := by
  have h2 : 2 * Real.pi ≠ 0 := by positivity
  simp [buildMymatrix, det_colMat, h2]

theorem nonsingID01inpGraz :
    (buildMymatrix .ID01 (some .inplane) (pi / 4) 0 (pi / 2) 1 1 1 1 (2 * pi) 1 1 1).det ≠ 0 := by
  have h2 : 2 * Real.pi ≠ 0 := by positivity
  have h4 : (Real.pi / 4 : ℝ) ≠ 0 := by positivity
  simp only [buildMymatrix, if_neg h4]
  rw [det_colMat]
  simp [h2, Real.sin_pi_div_four, Real.cos_pi_div_four]

theorem nonsingP10oop :
    (buildMymatrix .P10 (some .outofplane) 0 (pi / 2) 0 1 1 1 1 (2 * pi) 1 1 1).det ≠ 0 := by
  have h2 : 2 * Real.pi ≠ 0 := by positivity
  simp only [buildMymatrix]
  rw [det_colMat]
  simp [h2]

theorem nonsingP10inpZero :
    (buildMymatrix .P10 (some .inplane) 0 0 (pi / 2) 1 1 1 1 (2 * pi) 1 1 1).det ≠ 0 := by
  have h2 : 2 * Real.pi ≠ 0 := by positivity
  simp [buildMymatrix, det_colMat, h2]

theorem nonsingP10inpGraz :
    (buildMymatrix .P10 (some .inplane) (pi / 4) 0 (pi / 2) 1 1 1 1 (2 * pi) 1 1 1).det ≠ 0 := by
  have h2 : 2 * Real.pi ≠ 0 := by positivity
  have h4 : (Real.pi / 4 : ℝ) ≠ 0 := by positivity
  simp only [buildMymatrix, if_neg h4]
  rw [det_colMat]
  simp [h2, Real.sin_pi_div_four, Real.cos_pi_div_four]

theorem nonsingNANOMAXoop :
    (buildMymatrix .NANOMAX (some .outofplane) 0 (pi / 2) 0 1 1 1 1 (2 * pi) 1 1 1).det ≠ 0 := by
  have h2 : 2 * Real.pi ≠ 0 := by positivity
  simp only [buildMymatrix]
  rw [det_colMat]
  simp [h2]

theorem nonsingNANOMAXinpZero :
    (buildMymatrix .NANOMAX (some .inplane) 0 0 (pi / 2) 1 1 1 1 (2 * pi) 1 1 1).det ≠ 0 := by
  have h2 : 2 * Real.pi ≠ 0 := by positivity
  simp [buildMymatrix, det_colMat, h2]

theorem nonsingNANOMAXinpGraz :
    (buildMymatrix .NANOMAX (some .inplane) (pi / 4) 0 (pi / 2) 1 1 1 1 (2 * pi) 1 1 1).det ≠ 0 := by
  have h2 : 2 * Real.pi ≠ 0 := by positivity
  have h4 : (Real.pi / 4 : ℝ) ≠ 0 := by positivity
  simp only [buildMymatrix, if_neg h4]
  rw [det_colMat]
  simp [h2, Real.sin_pi_div_four, Real.cos_pi_div_four]

theorem nonsingAPS34IDoop :
    (buildMymatrix .APS34ID (some .outofplane) 0 (pi / 2) 0 1 1 1 1 (2 * pi) 1 1 1).det ≠ 0 := by
  have h2 : 2 * Real.pi ≠ 0 := by positivity
  simp only [buildMymatrix]
  rw [det_colMat]
  simp [h2]

theorem nonsingAPS34IDinpGraz :
    (buildMymatrix .APS34ID (some .inplane) (pi / 4) 0 (pi / 2) 1 1 1 1 (2 * pi) 1 1 1).det ≠ 0 := by
  have h2 : 2 * Real.pi ≠ 0 := by positivity
  have h4 : (Real.pi / 4 : ℝ) ≠ 0 := by positivity
  simp only [buildMymatrix, if_pos h4]
  rw [det_colMat]
  simp [h2, Real.sin_pi_div_four, Real.cos_pi_div_four]

theorem nonsingAPS34IDinpZero :
    (buildMymatrix .APS34ID (some .inplane) 0 0 (pi / 2) 1 1 1 1 (2 * pi) 1 1 1).det ≠ 0 := by
  have h2 : 2 * Real.pi ≠ 0 := by positivity
  have h0 : ¬((0 : ℝ) ≠ 0) := by simp
  simp only [buildMymatrix, if_neg h0]
  rw [det_colMat]
  simp [h2]

theorem nonsingSIXS2018inpGraz :
    (buildMymatrix .SIXS2018 (some .inplane) (pi / 4) 0 (pi / 2) 1 1 1 1 (2 * pi) 1 1 1).det ≠ 0 := by
  have h2 : 2 * Real.pi ≠ 0 := by positivity
  have h4 : (Real.pi / 4 : ℝ) ≠ 0 := by positivity
  have hs : (0 : ℝ) < Real.sqrt 2 := by positivity
  simp only [buildMymatrix, if_pos h4]
  rw [det_colMat]
  simp [h2, Real.sin_pi_div_four, Real.cos_pi_div_four]
  intro h
  nlinarith [hs, Real.sq_sqrt (show (0 : ℝ) ≤ 2 by norm_num)]

theorem nonsingSIXS2018inpZero :
    (buildMymatrix .SIXS2018 (some .inplane) 0 0 (pi / 2) 1 1 1 1 (2 * pi) 1 1 1).det ≠ 0 := by
  have h2 : 2 * Real.pi ≠ 0 := by positivity
  have h0 : ¬((0 : ℝ) ≠ 0) := by simp
  simp only [buildMymatrix, if_neg h0]
  rw [det_colMat]
  simp [h2]

theorem nonsingSIXS2019inpGraz :
    (buildMymatrix .SIXS2019 (some .inplane) (pi / 4) 0 (pi / 2) 1 1 1 1 (2 * pi) 1 1 1).det ≠ 0 := by
  have h2 : 2 * Real.pi ≠ 0 := by positivity
  have h4 : (Real.pi / 4 : ℝ) ≠ 0 := by positivity
  have hs : (0 : ℝ) < Real.sqrt 2 := by positivity
  simp only [buildMymatrix, if_pos h4]
  rw [det_colMat]
  simp [h2, Real.sin_pi_div_four, Real.cos_pi_div_four]
  intro h
  nlinarith [hs, Real.sq_sqrt (show (0 : ℝ) ≤ 2 by norm_num)]

theorem nonsingSIXS2019inpZero :
    (buildMymatrix .SIXS2019 (some .inplane) 0 0 (pi / 2) 1 1 1 1 (2 * pi) 1 1 1).det ≠ 0 := by
  have h2 : 2 * Real.pi ≠ 0 := by positivity
  have h0 : ¬((0 : ℝ) ≠ 0) := by simp
  simp only [buildMymatrix, if_neg h0]
  rw [det_colMat]
  simp [h2]

theorem nonsingCRISTALoop :
    (buildMymatrix .CRISTAL (some .outofplane) 0 (pi / 2) 0 1 1 1 1 (2 * pi) 1 1 1).det ≠ 0 := by
  have h2 : 2 * Real.pi ≠ 0 := by positivity
  simp only [buildMymatrix]
  rw [det_colMat]
  simp [h2]

/-- C5: for every supported beamline and every
`(rocking_angle, grazing_angle == 0)` branch that the `update_coords` case
table defines (three per beamline for ID01, P10, NANOMAX and 34ID; the two
inplane branches for SIXS_2018 and SIXS_2019; the outofplane branch for
CRISTAL), the constructed `mymatrix` is non-singular at representative
non-degenerate angles (out-of-plane or in-plane angle of 90 degrees, grazing
angle of 45 degrees in the non-zero-grazing branches, unit positive lengths
and tilt), so `np.linalg.inv` never hits its singular-matrix error branch
there. -/
theorem defined_branch_matrices_nonsingular :
    (buildMymatrix .ID01 (some .outofplane) 0 (pi / 2) 0 1 1 1 1 (2 * pi) 1 1 1).det ≠ 0 ∧
    (buildMymatrix .ID01 (some .inplane) 0 0 (pi / 2) 1 1 1 1 (2 * pi) 1 1 1).det ≠ 0 ∧
    (buildMymatrix .ID01 (some .inplane) (pi / 4) 0 (pi / 2) 1 1 1 1 (2 * pi) 1 1 1).det ≠ 0 ∧
    (buildMymatrix .P10 (some .outofplane) 0 (pi / 2) 0 1 1 1 1 (2 * pi) 1 1 1).det ≠ 0 ∧
    (buildMymatrix .P10 (some .inplane) 0 0 (pi / 2) 1 1 1 1 (2 * pi) 1 1 1).det ≠ 0 ∧
    (buildMymatrix .P10 (some .inplane) (pi / 4) 0 (pi / 2) 1 1 1 1 (2 * pi) 1 1 1).det ≠ 0 ∧
    (buildMymatrix .NANOMAX (some .outofplane) 0 (pi / 2) 0 1 1 1 1 (2 * pi) 1 1 1).det ≠ 0 ∧
    (buildMymatrix .NANOMAX (some .inplane) 0 0 (pi / 2) 1 1 1 1 (2 * pi) 1 1 1).det ≠ 0 ∧
    (buildMymatrix .NANOMAX (some .inplane) (pi / 4) 0 (pi / 2) 1 1 1 1 (2 * pi) 1 1 1).det ≠ 0 ∧
    (buildMymatrix .APS34ID (some .outofplane) 0 (pi / 2) 0 1 1 1 1 (2 * pi) 1 1 1).det ≠ 0 ∧
    (buildMymatrix .APS34ID (some .inplane) (pi / 4) 0 (pi / 2) 1 1 1 1 (2 * pi) 1 1 1).det ≠ 0 ∧
    (buildMymatrix .APS34ID (some .inplane) 0 0 (pi / 2) 1 1 1 1 (2 * pi) 1 1 1).det ≠ 0 ∧
    (buildMymatrix .SIXS2018 (some .inplane) (pi / 4) 0 (pi / 2) 1 1 1 1 (2 * pi) 1 1 1).det ≠ 0 ∧
    (buildMymatrix .SIXS2018 (some .inplane) 0 0 (pi / 2) 1 1 1 1 (2 * pi) 1 1 1).det ≠ 0 ∧
    (buildMymatrix .SIXS2019 (some .inplane) (pi / 4) 0 (pi / 2) 1 1 1 1 (2 * pi) 1 1 1).det ≠ 0 ∧
    (buildMymatrix .SIXS2019 (some .inplane) 0 0 (pi / 2) 1 1 1 1 (2 * pi) 1 1 1).det ≠ 0 ∧
    (buildMymatrix .CRISTAL (some .outofplane) 0 (pi / 2) 0 1 1 1 1 (2 * pi) 1 1 1).det ≠ 0 :=
  ⟨nonsingID01oop, nonsingID01inpZero, nonsingID01inpGraz, nonsingP10oop, nonsingP10inpZero,
   nonsingP10inpGraz, nonsingNANOMAXoop, nonsingNANOMAXinpZero, nonsingNANOMAXinpGraz,
   nonsingAPS34IDoop, nonsingAPS34IDinpGraz, nonsingAPS34IDinpZero, nonsingSIXS2018inpGraz,
   nonsingSIXS2018inpZero, nonsingSIXS2019inpGraz, nonsingSIXS2019inpZero, nonsingCRISTALoop⟩

/-- Model of `np.radians`: degrees to radians. -/
noncomputable def radians (x : ℝ) : ℝ := x * pi / 180

/-- Attribute state shared by the `Setup`-like classes.  Fields wrapped in
`Option` hold Python `None` when absent; `grazingAttr` records whether the
object has a `grazing_angle` attribute at all: `Setup.__init__` (lines 21-68)
never assigns one (line 372 is only a TODO comment and the class defines no
such property), while `SetupPostprocessing.__init__` assigns it (line 923). -/
structure Setup where
  beamline : Beamline
  energy : Option ℝ
  distance : Option ℝ
  outofplaneAngle : Option ℝ
  inplaneAngle : Option ℝ
  tiltAngle : Option ℝ
  rockingAngle : Option RockingAngle
  pixelX : Option ℝ
  pixelY : Option ℝ
  grazingAttr : Option ℝ

/-- The `Setup.wavelength` property (lines 152-155): `if self.energy:` is the
Python truthiness test, so a missing or zero energy makes the property return
`None`, otherwise `12.398 * 1e-7 / energy` in meters. -/
noncomputable def Setup.wavelengthProp (s : Setup) : Option ℝ :=
  match s.energy with
  | none => none
  | some e => if e = 0 then none else some (12.398 * 1e-7 / e)

/-- Model of `Setup.update_coords` (lines 575-844).  The reads happen in source order:
`self.wavelength * 1e9` and `self.distance * 1e9` raise `TypeError` when the
value is `None`, so do the `pixel_x * 1e9` / `pixel_y * 1e9` argument
conversions and `np.radians` of the two detector angles; then
`np.radians(self.grazing_angle)` at line 592 raises `AttributeError` when the
instance has no `grazing_angle` attribute; then `np.radians(tilt_angle)`;
finally the branch table fills `mymatrix` and the function returns
`2 * np.pi * np.linalg.inv(mymatrix).transpose()`.
`SetupPostprocessing.update_coords` (lines 1234-1503) is the same code (its
`self.wavelength` is the value stored by `__init__`, which agrees with the
property whenever the energy is nonzero). -/
noncomputable def Setup.updateCoords (s : Setup) (arrayShape : ℕ × ℕ × ℕ)
    (tiltAngle pixelXArg pixelYArg : Option ℝ) :
    Except PyErr (Matrix (Fin 3) (Fin 3) ℝ) :=
  match s.wavelengthProp with
  | none => .error .typeError
  | some wl =>
  match s.distance with
  | none => .error .typeError
  | some dist =>
  match pixelXArg with
  | none => .error .typeError
  | some pxArg =>
  match pixelYArg with
  | none => .error .typeError
  | some pyArg =>
  match s.outofplaneAngle with
  | none => .error .typeError
  | some oopDeg =>
  match s.inplaneAngle with
  | none => .error .typeError
  | some ipDeg =>
  match s.grazingAttr with
  | none => .error .attributeError
  | some grazDeg =>
  match tiltAngle with
  | none => .error .typeError
  | some tiltDeg =>
    let wavelength := wl * 1e9
    let distance := dist * 1e9
    let pixelX := pxArg * 1e9
    let pixelY := pyArg * 1e9
    let outofplane := radians oopDeg
    let inplane := radians ipDeg
    let mygrazing := radians grazDeg
    let lambdaz := wavelength * distance
    let tilt := radians tiltDeg
    let mymatrix := buildMymatrix s.beamline s.rockingAngle mygrazing outofplane inplane tilt
      arrayShape.1 arrayShape.2.1 arrayShape.2.2 lambdaz pixelX pixelY distance
    (npLinalgInv3 mymatrix).map fun inv3 => (2 * pi) • inv3.transpose

/-- Model of `np.linalg.norm` of row `i` of a 3x3 matrix. -/
noncomputable def rowNorm (M : Matrix (Fin 3) (Fin 3) ℝ) (i : Fin 3) : ℝ :=
  Real.sqrt (M i 0 ^ 2 + M i 1 ^ 2 + M i 2 ^ 2)

/-- The map `X ↦ 2 * np.pi * np.linalg.inv(X).transpose()` applied at line 843
(transfer matrix from `mymatrix`) and again at line 862 (`rec_matrix` from the
transfer matrix), written with the total Mathlib inverse; `npLinalgInv3`
agrees with it whenever the determinant is nonzero. -/
noncomputable def pyRecip (X : Matrix (Fin 3) (Fin 3) ℝ) : Matrix (Fin 3) (Fin 3) ℝ :=
  (2 * pi) • X⁻¹.transpose

/-- The voxel-size triple computed from a `rec_matrix` (lines 863-872):
`qx, qy, qz` are the row norms of rows 0, 1, 2 and the returned triple is
`(2π/qz, 2π/qy, 2π/qx)`. -/
noncomputable def voxelTripleOf (recMatrix : Matrix (Fin 3) (Fin 3) ℝ) : ℝ × ℝ × ℝ :=
  (2 * pi / rowNorm recMatrix 2, 2 * pi / rowNorm recMatrix 1, 2 * pi / rowNorm recMatrix 0)

/-- The map of `voxel_sizes` as a function of an already built transfer matrix:
`rec_matrix = 2π inv(T)ᵀ`, then the row-norm triple. -/
noncomputable def voxelSizesFromTransfer (T : Matrix (Fin 3) (Fin 3) ℝ) : ℝ × ℝ × ℝ :=
  voxelTripleOf (pyRecip T)

/-- Model of `Setup.voxel_sizes` (lines 846-872): build the transfer matrix through
`update_coords`, invert it (`np.linalg.inv` again), scale by `2π`, transpose
and return the row-norm triple. -/
noncomputable def Setup.voxelSizes (s : Setup) (arrayShape : ℕ × ℕ × ℕ)
    (tiltAngle pixelXArg pixelYArg : Option ℝ) : Except PyErr (ℝ × ℝ × ℝ) :=
  match s.updateCoords arrayShape tiltAngle pixelXArg pixelYArg with
  | .error err => .error err
  | .ok T =>
  match npLinalgInv3 T with
  | .error err => .error err
  | .ok Tinv => .ok (voxelTripleOf ((2 * pi) • Tinv.transpose))

/-- Model of `Setup.orthogonalize_vector` (lines 550-573): invert the transfer matrix
and apply the inverse to the (z, y, x) vector. -/
noncomputable def Setup.orthogonalizeVector (s : Setup) (vector : ℝ × ℝ × ℝ)
    (arrayShape : ℕ × ℕ × ℕ) (tiltAngle pixelXArg pixelYArg : Option ℝ) :
    Except PyErr (ℝ × ℝ × ℝ) :=
  match s.updateCoords arrayShape tiltAngle pixelXArg pixelYArg with
  | .error err => .error err
  | .ok T =>
  match npLinalgInv3 T with
  | .error err => .error err
  | .ok im =>
    .ok (im 2 0 * vector.2.2 + im 2 1 * vector.2.1 + im 2 2 * vector.1,
      im 1 0 * vector.2.2 + im 1 1 * vector.2.1 + im 1 2 * vector.1,
      im 0 0 * vector.2.2 + im 0 1 * vector.2.1 + im 0 2 * vector.1)

/-- The unified `Setup.__init__` (lines 21-68), routed through the validating
property setters for energy, distance and the two pixel sizes (the angle and
rocking-angle setters only type-check their input, which the typed embedding
enforces already).  No `grazing_angle` attribute is ever assigned. -/
noncomputable def setupInit (bl : Beamline) (energy distance oop ip tilt : Option ℝ)
    (rock : Option RockingAngle) (px py : Option ℝ) : Except PyErr Setup :=
  match energySetter energy with
  | .error err => .error err
  | .ok e =>
  match distanceSetter distance with
  | .error err => .error err
  | .ok d =>
  match pixelXSetter px with
  | .error err => .error err
  | .ok x =>
  match pixelYSetter py with
  | .error err => .error err
  | .ok y =>
    .ok { beamline := bl, energy := e, distance := d, outofplaneAngle := oop,
          inplaneAngle := ip, tiltAngle := tilt, rockingAngle := rock,
          pixelX := x, pixelY := y, grazingAttr := none }

/-- Model of `SetupPostprocessing.__init__` (lines 899-926): plain attribute
assignments without validation; `grazing_angle` (default 0) is stored. -/
def setupPostInit (bl : Beamline) (energy oop ip tilt : ℝ) (rock : Option RockingAngle)
    (distance grazing px py : ℝ) : Setup :=
  { beamline := bl, energy := some energy, distance := some distance,
    outofplaneAngle := some oop, inplaneAngle := some ip, tiltAngle := some tilt,
    rockingAngle := rock, pixelX := some px, pixelY := some py,
    grazingAttr := some grazing }

/-- Applying `2π inv(·)ᵀ` twice returns the original invertible matrix. -/
theorem pyRecip_pyRecip (M : Matrix (Fin 3) (Fin 3) ℝ) (h : M.det ≠ 0) :
    pyRecip (pyRecip M) = M := by
  have hu : IsUnit M.det := isUnit_iff_ne_zero.mpr h
  have h2 : (2 * Real.pi : ℝ) ≠ 0 := by positivity
  have hstep : ((2 * Real.pi) • M⁻¹.transpose)⁻¹ = (2 * Real.pi)⁻¹ • M.transpose := by
    apply Matrix.inv_eq_right_inv
    rw [Matrix.smul_mul, Matrix.mul_smul, smul_smul, ← Matrix.transpose_mul,
      Matrix.mul_nonsing_inv M hu, Matrix.transpose_one, mul_inv_cancel₀ h2, one_smul]
  simp only [pyRecip]
  rw [hstep, Matrix.transpose_smul, Matrix.transpose_transpose, smul_smul,
    mul_inv_cancel₀ h2, one_smul]

/-- The transfer matrix of an invertible construction matrix is invertible. -/
theorem det_pyRecip_ne_zero (M : Matrix (Fin 3) (Fin 3) ℝ) (h : M.det ≠ 0) :
    (pyRecip M).det ≠ 0 := by
  have h2 : (2 * Real.pi : ℝ) ≠ 0 := by positivity
  rw [pyRecip, Matrix.det_smul, Matrix.det_transpose, Matrix.det_nonsing_inv,
    Ring.inverse_eq_inv]
  exact mul_ne_zero (pow_ne_zero _ h2) (inv_ne_zero h)

/-- C4: for every invertible 3x3 construction matrix `M`, the map
`X ↦ 2π inv(X)ᵀ` (`pyRecip`, the operation applied at line 843 to produce the
transfer matrix and again at line 862 to produce `rec_matrix`) is an
involution; hence the `rec_matrix` computed inside `voxel_sizes` equals the raw
construction matrix `mymatrix`, each returned voxel size is `2π` divided by
the norm of the corresponding row of the construction matrix, and re-deriving
voxel sizes through a recomputed transfer matrix is a fixed point. -/
theorem transfer_voxel_roundtrip (M : Matrix (Fin 3) (Fin 3) ℝ) (h : M.det ≠ 0) :
    pyRecip (pyRecip M) = M ∧
    voxelSizesFromTransfer (pyRecip M) =
      (2 * pi / rowNorm M 2, 2 * pi / rowNorm M 1, 2 * pi / rowNorm M 0) ∧
    voxelSizesFromTransfer (pyRecip (pyRecip (pyRecip M))) =
      voxelSizesFromTransfer (pyRecip M) := by
  refine ⟨pyRecip_pyRecip M h, ?_, ?_⟩
  · rw [voxelSizesFromTransfer, pyRecip_pyRecip M h, voxelTripleOf]
  · rw [pyRecip_pyRecip (pyRecip M) (det_pyRecip_ne_zero M h)]

/-- Witness for C4 at the identity matrix. -/
theorem transfer_voxel_roundtrip_witness :
    (1 : Matrix (Fin 3) (Fin 3) ℝ).det ≠ 0 ∧
      pyRecip (pyRecip (1 : Matrix (Fin 3) (Fin 3) ℝ)) = 1 :=
  ⟨by simp, (transfer_voxel_roundtrip 1 (by simp)).1⟩

/-- CRISTAL has no inplane branch: `mymatrix` keeps its zero initialisation. -/
theorem buildMymatrix_cristal_inplane (graz oop ip tilt : ℝ) (nbz nby nbx : ℕ)
    (lambdaz px py dist : ℝ) :
    buildMymatrix .CRISTAL (some .inplane) graz oop ip tilt nbz nby nbx lambdaz px py dist = 0 :=
  rfl

/-- SIXS_2018 has no outofplane branch. -/
theorem buildMymatrix_sixs2018_oop (graz oop ip tilt : ℝ) (nbz nby nbx : ℕ)
    (lambdaz px py dist : ℝ) :
    buildMymatrix .SIXS2018 (some .outofplane) graz oop ip tilt nbz nby nbx lambdaz px py dist = 0 :=
  rfl

/-- SIXS_2019 has no outofplane branch. -/
theorem buildMymatrix_sixs2019_oop (graz oop ip tilt : ℝ) (nbz nby nbx : ℕ)
    (lambdaz px py dist : ℝ) :
    buildMymatrix .SIXS2019 (some .outofplane) graz oop ip tilt nbz nby nbx lambdaz px py dist = 0 :=
  rfl

/-- Inverting the zero matrix hits the singular-matrix error branch. -/
theorem npLinalgInv3_zero : npLinalgInv3 (0 : Matrix (Fin 3) (Fin 3) ℝ) = .error .linAlgError := by
  have h : (0 : Matrix (Fin 3) (Fin 3) ℝ).det = 0 := Matrix.det_zero ⟨0⟩
  simp [npLinalgInv3, h]

/-- C3: no `UnsupportedRockingModeError` exists anywhere in the code.  For the
`(rocking_angle, grazing_angle)` combinations without a formula (CRISTAL with
rocking inplane; SIXS_2018 and SIXS_2019 with rocking outofplane) `mymatrix`
keeps its `np.zeros((3,3))` initialisation, so the transfer-matrix
construction fails inside `np.linalg.inv` with the singular-matrix
`LinAlgError` instead; the final conjunct evaluates the whole of
`update_coords` on a CRISTAL inplane `SetupPostprocessing` instance.  (On the
unified `Setup` class an `AttributeError` is raised even earlier, see C2.) -/
theorem unmatched_branch_linalg_error :
    (∀ graz oop ip tilt : ℝ, ∀ nbz nby nbx : ℕ, ∀ lambdaz px py dist : ℝ,
      buildMymatrix .CRISTAL (some .inplane) graz oop ip tilt nbz nby nbx lambdaz px py dist = 0 ∧
      npLinalgInv3 (buildMymatrix .CRISTAL (some .inplane) graz oop ip tilt nbz nby nbx
        lambdaz px py dist) = .error .linAlgError) ∧
    (∀ graz oop ip tilt : ℝ, ∀ nbz nby nbx : ℕ, ∀ lambdaz px py dist : ℝ,
      buildMymatrix .SIXS2018 (some .outofplane) graz oop ip tilt nbz nby nbx lambdaz px py dist = 0 ∧
      npLinalgInv3 (buildMymatrix .SIXS2018 (some .outofplane) graz oop ip tilt nbz nby nbx
        lambdaz px py dist) = .error .linAlgError) ∧
    (∀ graz oop ip tilt : ℝ, ∀ nbz nby nbx : ℕ, ∀ lambdaz px py dist : ℝ,
      buildMymatrix .SIXS2019 (some .outofplane) graz oop ip tilt nbz nby nbx lambdaz px py dist = 0 ∧
      npLinalgInv3 (buildMymatrix .SIXS2019 (some .outofplane) graz oop ip tilt nbz nby nbx
        lambdaz px py dist) = .error .linAlgError) ∧
    (setupPostInit .CRISTAL 8800 0 7.248 0.01 (some .inplane) 7.25 0 110e-6
        110e-6).updateCoords (41, 256, 256) (some 0.01) (some 110e-6) (some 110e-6) =
      .error .linAlgError := by
  have h8 : (8800 : ℝ) ≠ 0 := by norm_num
  refine ⟨?_, ?_, ?_, ?_⟩
  · intro graz oop ip tilt nbz nby nbx lambdaz px py dist
    exact ⟨rfl, by rw [buildMymatrix_cristal_inplane]; exact npLinalgInv3_zero⟩
  · intro graz oop ip tilt nbz nby nbx lambdaz px py dist
    exact ⟨rfl, by rw [buildMymatrix_sixs2018_oop]; exact npLinalgInv3_zero⟩
  · intro graz oop ip tilt nbz nby nbx lambdaz px py dist
    exact ⟨rfl, by rw [buildMymatrix_sixs2019_oop]; exact npLinalgInv3_zero⟩
  · simp only [Setup.updateCoords, setupPostInit, Setup.wavelengthProp, if_neg h8,
      buildMymatrix_cristal_inplane, npLinalgInv3_zero]
    rfl

/-- The attribute state produced by the unified `Setup` construction of the C1
scenario: `Setup(beamline=ID01, energy=8800, distance=7.25,
outofplane_angle=0, inplane_angle=7.248, tilt_angle=0.01,
rocking_angle=inplane, pixel_x=110e-6, pixel_y=110e-6)`; no `grazing_angle`
attribute exists on it. -/
noncomputable def scenarioSetup : Setup :=
  { beamline := .ID01, energy := some 8800, distance := some 7.25, outofplaneAngle := some 0,
    inplaneAngle := some 7.248, tiltAngle := some 0.01, rockingAngle := some .inplane,
    pixelX := some 110e-6, pixelY := some 110e-6, grazingAttr := none }

/-- Value of `lambdaz` for the scenario geometry, in nm squared:
`wavelength * 1e9 * (distance * 1e9)`. -/
noncomputable def scenarioLz : ℝ := 12.398 * 1e-7 / 8800 * 1e9 * (7.25 * 1e9)

/-- Entry (0,0) of the scenario construction matrix. -/
noncomputable def scenA : ℝ :=
  2 * pi * 256 / scenarioLz * (110e-6 * 1e9 * cos (7.248 * pi / 180))

/-- Magnitude of entry (1,1) of the scenario construction matrix. -/
noncomputable def scenB : ℝ := 2 * pi * 256 / scenarioLz * (110e-6 * 1e9)

/-- Magnitude of entry (0,2) of the scenario construction matrix. -/
noncomputable def scenC : ℝ :=
  2 * pi * 41 / scenarioLz *
    (0.01 * pi / 180 * (7.25 * 1e9) * (1 - cos (7.248 * pi / 180)))

/-- Entry (2,0) of the scenario construction matrix. -/
noncomputable def scenD : ℝ :=
  2 * pi * 256 / scenarioLz * (110e-6 * 1e9 * sin (7.248 * pi / 180))

/-- Entry (2,2) of the scenario construction matrix. -/
noncomputable def scenE : ℝ :=
  2 * pi * 41 / scenarioLz *
    (0.01 * pi / 180 * (7.25 * 1e9) * sin (7.248 * pi / 180))

/-- The construction matrix `mymatrix` that `update_coords` builds for the
scenario geometry (ID01, rocking inplane, grazing angle 0): the `nm`-converted
arguments are exactly those of the scenario call. -/
noncomputable def scenarioM : Matrix (Fin 3) (Fin 3) ℝ :=
  buildMymatrix .ID01 (some .inplane) (radians 0) (radians 0) (radians 7.248) (radians 0.01)
    41 256 256 scenarioLz (110e-6 * 1e9) (110e-6 * 1e9) (7.25 * 1e9)

/-- The scenario construction matrix written out: with `outofplane = 0` and
`grazing = 0` the sines of the out-of-plane angle vanish and its cosine is 1. -/
theorem scenarioM_eq :
    scenarioM = Matrix.of ![![scenA, 0, -scenC], ![0, -scenB, 0], ![scenD, 0, scenE]] := by
  have h0 : radians 0 = 0 := by simp [radians]
  ext i j
  fin_cases i <;> fin_cases j <;>
    simp [scenarioM, buildMymatrix, if_pos h0, h0, colMat, radians,
      scenA, scenB, scenC, scenD, scenE]

theorem scen_cos_pos : 0 < cos (7.248 * pi / 180) := by
  apply Real.cos_pos_of_mem_Ioo
  rw [Set.mem_Ioo]
  constructor
  · nlinarith [Real.pi_pos]
  · nlinarith [Real.pi_pos]

theorem scen_sin_pos : 0 < sin (7.248 * pi / 180) := by
  apply Real.sin_pos_of_pos_of_lt_pi
  · positivity
  · nlinarith [Real.pi_pos]

theorem scen_components : 0 < scenA ∧ 0 < scenB ∧ 0 ≤ scenC ∧ 0 < scenD ∧ 0 < scenE := by
  have hK1 : 0 < 2 * pi * 256 / scenarioLz := by
    simp only [scenarioLz]
    positivity
  have hK2 : 0 < 2 * pi * 41 / scenarioLz := by
    simp only [scenarioLz]
    positivity
  have htd : (0 : ℝ) < 0.01 * pi / 180 * (7.25 * 1e9) := by positivity
  have hcle := Real.cos_le_one (7.248 * pi / 180)
  refine ⟨?_, ?_, ?_, ?_, ?_⟩
  · exact mul_pos hK1 (mul_pos (by norm_num) scen_cos_pos)
  · exact mul_pos hK1 (by norm_num)
  · exact mul_nonneg hK2.le (mul_nonneg htd.le (by linarith))
  · exact mul_pos hK1 (mul_pos (by norm_num) scen_sin_pos)
  · exact mul_pos hK2 (mul_pos htd scen_sin_pos)

theorem scenarioM_det_ne : scenarioM.det ≠ 0 := by
  obtain ⟨hA, hB, hC, hD, hE⟩ := scen_components
  have hval : (Matrix.of ![![scenA, 0, -scenC], ![0, -scenB, 0], ![scenD, 0, scenE]]).det
      = -(scenB * (scenA * scenE + scenC * scenD)) := by
    simp [Matrix.det_fin_three]
    ring
  rw [scenarioM_eq, hval]
  apply ne_of_lt
  apply neg_lt_zero.mpr
  apply mul_pos hB
  nlinarith [mul_pos hA hE, mul_nonneg hC hD.le]

theorem scen_pi_sq_lt : pi ^ 2 < 10 := by
  nlinarith [Real.pi_lt_d2, Real.pi_pos]

theorem scen_pi_sq_gt : 9 < pi ^ 2 := by
  nlinarith [Real.pi_gt_three, Real.pi_pos]

set_option maxHeartbeats 2000000 in
/-- Row norms of the scenario construction matrix all lie strictly between 0
and `2π`, so each scenario voxel size `2π / ‖row‖` is finite and above 1 nm. -/
theorem scenario_rowNorm_bounds :
    (0 < rowNorm scenarioM 0 ∧ rowNorm scenarioM 0 < 2 * pi) ∧
    (0 < rowNorm scenarioM 1 ∧ rowNorm scenarioM 1 < 2 * pi) ∧
    (0 < rowNorm scenarioM 2 ∧ rowNorm scenarioM 2 < 2 * pi) := by
  obtain ⟨hA, hB, hC, hD, hE⟩ := scen_components
  have h2π : (0 : ℝ) < 2 * pi := by positivity
  have hcle := Real.cos_le_one (7.248 * pi / 180)
  have hcge := Real.neg_one_le_cos (7.248 * pi / 180)
  have hsle := Real.sin_le_one (7.248 * pi / 180)
  have hc2 : cos (7.248 * pi / 180) ^ 2 ≤ 1 := by nlinarith
  have hs2 : sin (7.248 * pi / 180) ^ 2 ≤ 1 := by
    nlinarith [scen_sin_pos]
  have h1c2 : (1 - cos (7.248 * pi / 180)) ^ 2 ≤ 4 := by nlinarith
  have hππ : (0 : ℝ) < pi * pi := by positivity
  have hπ4 : pi ^ 4 < 100 := by
    nlinarith [scen_pi_sq_lt, scen_pi_sq_gt]
  have hS0 : scenA ^ 2 + scenC ^ 2 < (2 * pi) ^ 2 := by
    have key : scenA ^ 2 + scenC ^ 2 =
        pi ^ 2 * ((2 * 256 / scenarioLz * (110e-6 * 1e9)) ^ 2 * cos (7.248 * pi / 180) ^ 2) +
          pi ^ 4 * ((2 * 41 / scenarioLz * (0.01 / 180 * (7.25 * 1e9))) ^ 2 *
            (1 - cos (7.248 * pi / 180)) ^ 2) := by
      simp only [scenA, scenC]
      ring
    have hqA : ((2 : ℝ) * 256 / scenarioLz * (110e-6 * 1e9)) ^ 2 < 1 / 100 := by
      simp only [scenarioLz]
      norm_num
    have hqC : ((2 : ℝ) * 41 / scenarioLz * (0.01 / 180 * (7.25 * 1e9))) ^ 2 < 1 / 900 := by
      simp only [scenarioLz]
      norm_num
    rw [key]
    nlinarith [hc2, h1c2, scen_pi_sq_lt, scen_pi_sq_gt, hπ4, hqA, hqC,
      sq_nonneg pi, sq_nonneg (pi ^ 2), sq_nonneg (cos (7.248 * pi / 180)),
      sq_nonneg (1 - cos (7.248 * pi / 180)),
      mul_nonneg (sq_nonneg pi) (sq_nonneg (cos (7.248 * pi / 180))),
      mul_nonneg (sq_nonneg (pi ^ 2)) (sq_nonneg (1 - cos (7.248 * pi / 180)))]
  have hS1 : scenB ^ 2 < (2 * pi) ^ 2 := by
    have key : scenB ^ 2 =
        pi ^ 2 * ((2 * 256 / scenarioLz * (110e-6 * 1e9)) ^ 2) := by
      simp only [scenB]
      ring
    have hqB : ((2 : ℝ) * 256 / scenarioLz * (110e-6 * 1e9)) ^ 2 < 1 / 100 := by
      simp only [scenarioLz]
      norm_num
    rw [key]
    nlinarith [scen_pi_sq_lt, scen_pi_sq_gt, hqB, sq_nonneg pi]
  have hS2 : scenD ^ 2 + scenE ^ 2 < (2 * pi) ^ 2 := by
    have key : scenD ^ 2 + scenE ^ 2 =
        pi ^ 2 * ((2 * 256 / scenarioLz * (110e-6 * 1e9)) ^ 2 * sin (7.248 * pi / 180) ^ 2) +
          pi ^ 4 * ((2 * 41 / scenarioLz * (0.01 / 180 * (7.25 * 1e9))) ^ 2 *
            sin (7.248 * pi / 180) ^ 2) := by
      simp only [scenD, scenE]
      ring
    have hqA : ((2 : ℝ) * 256 / scenarioLz * (110e-6 * 1e9)) ^ 2 < 1 / 100 := by
      simp only [scenarioLz]
      norm_num
    have hqC : ((2 : ℝ) * 41 / scenarioLz * (0.01 / 180 * (7.25 * 1e9))) ^ 2 < 1 / 900 := by
      simp only [scenarioLz]
      norm_num
    rw [key]
    nlinarith [hs2, scen_pi_sq_lt, scen_pi_sq_gt, hπ4, hqA, hqC,
      sq_nonneg pi, sq_nonneg (pi ^ 2), sq_nonneg (sin (7.248 * pi / 180)),
      mul_nonneg (sq_nonneg pi) (sq_nonneg (sin (7.248 * pi / 180))),
      mul_nonneg (sq_nonneg (pi ^ 2)) (sq_nonneg (sin (7.248 * pi / 180)))]
  have hrn0 : rowNorm scenarioM 0 = Real.sqrt (scenA ^ 2 + scenC ^ 2) := by
    rw [scenarioM_eq]
    simp [rowNorm]
  have hrn1 : rowNorm scenarioM 1 = Real.sqrt (scenB ^ 2) := by
    rw [scenarioM_eq]
    simp [rowNorm]
  have hrn2 : rowNorm scenarioM 2 = Real.sqrt (scenD ^ 2 + scenE ^ 2) := by
    rw [scenarioM_eq]
    simp [rowNorm]
  refine ⟨⟨?_, ?_⟩, ⟨?_, ?_⟩, ⟨?_, ?_⟩⟩
  · rw [hrn0]
    apply Real.sqrt_pos.mpr
    nlinarith [sq_nonneg scenC]
  · rw [hrn0]
    exact (Real.sqrt_lt' h2π).mpr hS0
  · rw [hrn1]
    apply Real.sqrt_pos.mpr
    nlinarith
  · rw [hrn1]
    exact (Real.sqrt_lt' h2π).mpr hS1
  · rw [hrn2]
    apply Real.sqrt_pos.mpr
    nlinarith [sq_nonneg scenE]
  · rw [hrn2]
    exact (Real.sqrt_lt' h2π).mpr hS2

/-- On a legacy instance (grazing attribute present) with nonzero energy,
`update_coords` runs through to the matrix inversion. -/
theorem updateCoords_post_ok (bl : Beamline) (e oop ip tilt : ℝ) (rock : Option RockingAngle)
    (dist graz px py : ℝ) (nbz nby nbx : ℕ) (ta pxa pya : ℝ) (he : e ≠ 0) :
    (setupPostInit bl e oop ip tilt rock dist graz px py).updateCoords (nbz, nby, nbx)
        (some ta) (some pxa) (some pya) =
      (npLinalgInv3 (buildMymatrix bl rock (radians graz) (radians oop) (radians ip)
          (radians ta) nbz nby nbx (12.398 * 1e-7 / e * 1e9 * (dist * 1e9)) (pxa * 1e9)
          (pya * 1e9) (dist * 1e9))).map fun inv3 => (2 * pi) • inv3.transpose := by
  simp only [Setup.updateCoords, setupPostInit, Setup.wavelengthProp, if_neg he]

/-- The construction matrix of the scenario call on the legacy instance is
`scenarioM`. -/
theorem scenario_buildM_eq :
    buildMymatrix .ID01 (some .inplane) (radians 0) (radians 0) (radians 7.248) (radians 0.01)
        41 256 256 (12.398 * 1e-7 / 8800 * 1e9 * (7.25 * 1e9)) (110e-6 * 1e9) (110e-6 * 1e9)
        (7.25 * 1e9) = scenarioM :=
  rfl

/-- The legacy scenario `update_coords` call succeeds and returns the transfer
matrix `2π inv(scenarioM)ᵀ`. -/
theorem scenario_post_updateCoords :
    (setupPostInit .ID01 8800 0 7.248 0.01 (some .inplane) 7.25 0 110e-6 110e-6).updateCoords
        (41, 256, 256) (some 0.01) (some 110e-6) (some 110e-6) = .ok (pyRecip scenarioM) := by
  rw [updateCoords_post_ok .ID01 8800 0 7.248 0.01 (some .inplane) 7.25 0 110e-6 110e-6
      41 256 256 0.01 110e-6 110e-6 (by norm_num), scenario_buildM_eq]
  simp only [npLinalgInv3, if_neg scenarioM_det_ne, Except.map]
  rfl

/-- The legacy scenario `voxel_sizes` call succeeds with three values each
above 1 nm. -/
theorem scenario_legacy_voxel :
    ∃ vz vy vx : ℝ,
      (setupPostInit .ID01 8800 0 7.248 0.01 (some .inplane) 7.25 0 110e-6 110e-6).voxelSizes
          (41, 256, 256) (some 0.01) (some 110e-6) (some 110e-6) = .ok (vz, vy, vx) ∧
        1 < vz ∧ 1 < vy ∧ 1 < vx := by
  obtain ⟨⟨h0p, h0lt⟩, ⟨h1p, h1lt⟩, ⟨h2p, h2lt⟩⟩ := scenario_rowNorm_bounds
  refine ⟨2 * pi / rowNorm scenarioM 2, 2 * pi / rowNorm scenarioM 1,
    2 * pi / rowNorm scenarioM 0, ?_, ?_, ?_, ?_⟩
  · rw [Setup.voxelSizes, scenario_post_updateCoords]
    simp only [npLinalgInv3, if_neg (det_pyRecip_ne_zero scenarioM scenarioM_det_ne)]
    rw [show ((2 : ℝ) * pi) • ((pyRecip scenarioM)⁻¹).transpose =
        pyRecip (pyRecip scenarioM) from rfl,
      pyRecip_pyRecip scenarioM scenarioM_det_ne]
    rfl
  · exact (one_lt_div h2p).mpr h2lt
  · exact (one_lt_div h1p).mpr h1lt
  · exact (one_lt_div h0p).mpr h0lt

/-- C1: code_bug evaluation.  The scenario construction on the unified `Setup`
class succeeds, but the scenario `voxel_sizes` call raises `AttributeError`
(through `update_coords` reading the never-assigned `self.grazing_angle`)
instead of returning three positive nm values; on the otherwise identical
legacy `SetupPostprocessing` instance with grazing angle 0 (the configuration
exercised by the module main block, lines 1872-1875) the same call returns
three values that are indeed each greater than 1 nm. -/
theorem scenario_voxel_sizes_behavior :
    setupInit .ID01 (some 8800) (some 7.25) (some 0) (some 7.248) (some 0.01) (some .inplane)
        (some 110e-6) (some 110e-6) = .ok scenarioSetup ∧
    scenarioSetup.voxelSizes (41, 256, 256) (some 0.01) (some 110e-6) (some 110e-6) =
      .error .attributeError ∧
    (∃ vz vy vx : ℝ,
      (setupPostInit .ID01 8800 0 7.248 0.01 (some .inplane) 7.25 0 110e-6 110e-6).voxelSizes
          (41, 256, 256) (some 0.01) (some 110e-6) (some 110e-6) = .ok (vz, vy, vx) ∧
        1 < vz ∧ 1 < vy ∧ 1 < vx) := by
  refine ⟨?_, ?_, scenario_legacy_voxel⟩
  · simp only [setupInit, energySetter, distanceSetter, pixelXSetter, pixelYSetter]
    norm_num [scenarioSetup]
  · simp only [Setup.voxelSizes, Setup.updateCoords, scenarioSetup, Setup.wavelengthProp]
    norm_num

/-- A unified-class instance with the energy left `None`. -/
noncomputable def noEnergySetup : Setup :=
  { beamline := .ID01, energy := none, distance := some 7.25, outofplaneAngle := some 0,
    inplaneAngle := some 7.248, tiltAngle := some 0.01, rockingAngle := some .inplane,
    pixelX := some 110e-6, pixelY := some 110e-6, grazingAttr := none }

/-- C2, counterexample: not every unified-class instance raises
`AttributeError` from `update_coords`: when the energy is `None` the
`wavelength` property returns `None` and `self.wavelength * 1e9` at line 586
raises `TypeError` before line 592 is ever reached. -/
theorem updateCoords_not_always_attribute_error :
    setupInit .ID01 none (some 7.25) (some 0) (some 7.248) (some 0.01) (some .inplane)
        (some 110e-6) (some 110e-6) = .ok noEnergySetup ∧
    noEnergySetup.updateCoords (41, 256, 256) (some 0.01) (some 110e-6) (some 110e-6) =
      .error .typeError ∧
    (Except.error PyErr.typeError : Except PyErr (Matrix (Fin 3) (Fin 3) ℝ)) ≠
      .error .attributeError := by
  refine ⟨?_, ?_, by simp⟩
  · simp only [setupInit, energySetter, distanceSetter, pixelXSetter, pixelYSetter]
    norm_num [noEnergySetup]
  · simp only [Setup.updateCoords, noEnergySetup, Setup.wavelengthProp]

/-- First index of the centered `np.arange(-n // 2, n // 2)` grid. -/
def gridStart (n : ℕ) : ℤ := pyFloorDiv (-(n : ℤ)) 2

/-- Out-of-domain test of `RegularGridInterpolator` for one query point
against three uniform ascending grids with points `(gridStart n + s) * h`,
`s < n`: a point is outside when any coordinate lies before the first or after
the last grid value of its axis. -/
abbrev outOfGrid (n1 n2 n3 : ℕ) (h1 h2 h3 p1 p2 p3 : ℝ) : Prop :=
  p1 < (gridStart n1 : ℝ) * h1 ∨ ((gridStart n1 + n1 - 1 : ℤ) : ℝ) * h1 < p1 ∨
    p2 < (gridStart n2 : ℝ) * h2 ∨ ((gridStart n2 + n2 - 1 : ℤ) : ℝ) * h2 < p2 ∨
    p3 < (gridStart n3 : ℝ) * h3 ∨ ((gridStart n3 + n3 - 1 : ℤ) : ℝ) * h3 < p3

/-- Model of `scipy.interpolate.RegularGridInterpolator((g1, g2, g3), data,
method="linear", bounds_error=False, fill_value=0)` evaluated at one point,
for the uniform ascending grids `g(s) = (gridStart n + s) * h` (spacing
`h > 0`, at least two points per axis) used by both resamplers: outside the
grid domain the fill value 0 is returned (never an error); inside, the cell
index is the floor of the normalized coordinate clamped to the last cell
`n - 2`, and the value is the trilinear combination of the 8 cell corners. -/
noncomputable def rgiLinear3 (n1 n2 n3 : ℕ) (h1 h2 h3 : ℝ) (data : ℤ → ℤ → ℤ → ℝ)
    (p1 p2 p3 : ℝ) : ℝ :=
  if outOfGrid n1 n2 n3 h1 h2 h3 p1 p2 p3 then 0
  else
    let c1 : ℤ := min (⌊p1 / h1⌋ - gridStart n1) ((n1 : ℤ) - 2)
    let c2 : ℤ := min (⌊p2 / h2⌋ - gridStart n2) ((n2 : ℤ) - 2)
    let c3 : ℤ := min (⌊p3 / h3⌋ - gridStart n3) ((n3 : ℤ) - 2)
    let f1 : ℝ := p1 / h1 - ((gridStart n1 + c1 : ℤ) : ℝ)
    let f2 : ℝ := p2 / h2 - ((gridStart n2 + c2 : ℤ) : ℝ)
    let f3 : ℝ := p3 / h3 - ((gridStart n3 + c3 : ℤ) : ℝ)
    (1 - f1) * ((1 - f2) * ((1 - f3) * data c1 c2 c3 + f3 * data c1 c2 (c3 + 1)) +
        f2 * ((1 - f3) * data c1 (c2 + 1) c3 + f3 * data c1 (c2 + 1) (c3 + 1))) +
      f1 * ((1 - f2) * ((1 - f3) * data (c1 + 1) c2 c3 + f3 * data (c1 + 1) c2 (c3 + 1)) +
        f2 * ((1 - f3) * data (c1 + 1) (c2 + 1) c3 + f3 * data (c1 + 1) (c2 + 1) (c3 + 1)))

/-- A 3-D numeric array: a shape and a total map from integer indices to
values.  The element type is fixed by the embedding, which is how
`astype(obj.dtype)` (the identity on the value type) is represented. -/
structure Arr3 where
  shape : ℕ × ℕ × ℕ
  data : ℤ → ℤ → ℤ → ℝ

/-- The interpolation core of `Setup.orthogonalize` (lines 524-543): the
target laboratory grid point for output index `(i, j, k)` is the centered
integer grid scaled per axis by the voxel size; `ortho_imatrix = im` maps it
to detector-frame coordinates `(new_z, new_y, new_x)` (note the matrix rows
act on `(myx, myy, myz)`); the source array is interpolated there over its
unscaled centered integer grids, and the result is reshaped to `obj.shape`
and cast to the input dtype. -/
noncomputable def orthoResample (im : Matrix (Fin 3) (Fin 3) ℝ) (v : ℝ × ℝ × ℝ)
    (obj : Arr3) : Arr3 :=
  { shape := obj.shape,
    data := fun i j k =>
      rgiLinear3 obj.shape.1 obj.shape.2.1 obj.shape.2.2 1 1 1 obj.data
        (im 2 0 * ((orthogonalizeGrid obj.shape.2.2 k : ℝ) * v.2.2) +
          im 2 1 * ((orthogonalizeGrid obj.shape.2.1 j : ℝ) * v.2.1) +
          im 2 2 * ((orthogonalizeGrid obj.shape.1 i : ℝ) * v.1))
        (im 1 0 * ((orthogonalizeGrid obj.shape.2.2 k : ℝ) * v.2.2) +
          im 1 1 * ((orthogonalizeGrid obj.shape.2.1 j : ℝ) * v.2.1) +
          im 1 2 * ((orthogonalizeGrid obj.shape.1 i : ℝ) * v.1))
        (im 0 0 * ((orthogonalizeGrid obj.shape.2.2 k : ℝ) * v.2.2) +
          im 0 1 * ((orthogonalizeGrid obj.shape.2.1 j : ℝ) * v.2.1) +
          im 0 2 * ((orthogonalizeGrid obj.shape.1 i : ℝ) * v.1)) }

/-- The interpolation core of `Setup.detector_frame` (lines 420-435): the
forward transfer matrix is applied to the unscaled centered integer grid, and
the laboratory-frame source array is interpolated over its centered integer
grids scaled per axis by the voxel size. -/
noncomputable def detResample (m : Matrix (Fin 3) (Fin 3) ℝ) (v : ℝ × ℝ × ℝ)
    (obj : Arr3) : Arr3 :=
  { shape := obj.shape,
    data := fun i j k =>
      rgiLinear3 obj.shape.1 obj.shape.2.1 obj.shape.2.2 v.1 v.2.1 v.2.2 obj.data
        (m 2 0 * (detectorFrameGrid obj.shape.2.2 k : ℝ) +
          m 2 1 * (detectorFrameGrid obj.shape.2.1 j : ℝ) +
          m 2 2 * (detectorFrameGrid obj.shape.1 i : ℝ))
        (m 1 0 * (detectorFrameGrid obj.shape.2.2 k : ℝ) +
          m 1 1 * (detectorFrameGrid obj.shape.2.1 j : ℝ) +
          m 1 2 * (detectorFrameGrid obj.shape.1 i : ℝ))
        (m 0 0 * (detectorFrameGrid obj.shape.2.2 k : ℝ) +
          m 0 1 * (detectorFrameGrid obj.shape.2.1 j : ℝ) +
          m 0 2 * (detectorFrameGrid obj.shape.1 i : ℝ)) }

/-- Tail of `Setup.orthogonalize` after the voxel size is fixed (lines
518-548): build the transfer matrix for the (possibly rescaled) geometry,
invert it with `np.linalg.inv` (line 531) and resample. -/
noncomputable def orthoCore2 (s : Setup) (obj : Arr3) (voxel : ℝ × ℝ × ℝ) (tilt : ℝ)
    (px py : Option ℝ) : Except PyErr (Arr3 × (ℝ × ℝ × ℝ)) :=
  match s.updateCoords obj.shape (some tilt) px py with
  | .error err => .error err
  | .ok T =>
  match npLinalgInv3 T with
  | .error err => .error err
  | .ok im => .ok (orthoResample im voxel obj, voxel)

/-- Voxel-size selection of `Setup.orthogonalize` (lines 512-516): a missing
`voxel_size` defaults to the computed direct-space voxel sizes; a given one
must be a triple of positive numbers or the `assert` fails. -/
noncomputable def orthoCore (s : Setup) (obj : Arr3) (voxelSize : Option (ℝ × ℝ × ℝ))
    (tilt : ℝ) (px py : Option ℝ) (dflt : ℝ × ℝ × ℝ) :
    Except PyErr (Arr3 × (ℝ × ℝ × ℝ)) :=
  match voxelSize with
  | none => orthoCore2 s obj dflt tilt px py
  | some v =>
    if 0 < v.1 ∧ 0 < v.2.1 ∧ 0 < v.2.2 then orthoCore2 s obj v tilt px py
    else .error .assertionError

/-- Model of `Setup.orthogonalize` (lines 443-548).  `initial_shape` defaults to the
object shape; `voxel_sizes` is first evaluated on the FFT window shape with
`abs(self.tilt_angle)` (TypeError when the tilt attribute is `None`); when
the object was cropped relative to `initial_shape` the tilt and pixel sizes
are rescaled proportionally (TypeError when a pixel attribute is `None`) and
the voxel sizes recomputed as the printed sanity check; then the voxel size
is fixed and the `orthoCore` tail runs. -/
noncomputable def Setup.orthogonalize (s : Setup) (obj : Arr3)
    (initialShape : Option (ℕ × ℕ × ℕ)) (voxelSize : Option (ℝ × ℝ × ℝ)) :
    Except PyErr (Arr3 × (ℝ × ℝ × ℝ)) :=
  let ish := match initialShape with
    | none => obj.shape
    | some t => t
  match s.tiltAngle with
  | none => .error .typeError
  | some tl =>
  match s.voxelSizes ish (some |tl|) s.pixelX s.pixelY with
  | .error err => .error err
  | .ok dInit =>
  if obj.shape.1 ≠ ish.1 ∨ obj.shape.2.1 ≠ ish.2.1 ∨ obj.shape.2.2 ≠ ish.2.2 then
    match s.pixelY with
    | none => .error .typeError
    | some py0 =>
    match s.pixelX with
    | none => .error .typeError
    | some px0 =>
      let tilt2 := tl * ish.1 / obj.shape.1
      let py2 := py0 * ish.2.1 / obj.shape.2.1
      let px2 := px0 * ish.2.2 / obj.shape.2.2
      match s.voxelSizes obj.shape (some |tilt2|) (some px2) (some py2) with
      | .error err => .error err
      | .ok dNew => orthoCore s obj voxelSize tilt2 (some px2) (some py2) dNew
  else
    orthoCore s obj voxelSize tl s.pixelX s.pixelY dInit

/-- The `voxel_size` argument of `Setup.detector_frame`: a single number or a
triple (lines 398-402). -/
inductive VoxelArg
  | scalar (v : ℝ)
  | triple (v : ℝ × ℝ × ℝ)

/-- Tail of `Setup.detector_frame` (lines 414-441): build the transfer matrix
from the instance attributes and resample with the forward (non-inverted)
matrix. -/
noncomputable def detFrameCore (s : Setup) (obj : Arr3) (v : ℝ × ℝ × ℝ) :
    Except PyErr Arr3 :=
  match s.updateCoords obj.shape s.tiltAngle s.pixelX s.pixelY with
  | .error err => .error err
  | .ok T => .ok (detResample T v obj)

/-- Model of `Setup.detector_frame` (lines 381-441): a scalar voxel size is broadcast
to a triple without validation; a triple must be positive componentwise or
the `assert` fails; then the core resampling runs. -/
noncomputable def Setup.detectorFrame (s : Setup) (obj : Arr3) (voxelSize : VoxelArg) :
    Except PyErr Arr3 :=
  match voxelSize with
  | .scalar w => detFrameCore s obj (w, w, w)
  | .triple t =>
    if 0 < t.1 ∧ 0 < t.2.1 ∧ 0 < t.2.2 then detFrameCore s obj t
    else .error .assertionError

/-- A successful unified construction stores exactly the given attributes,
validated positive, and no `grazing_angle`. -/
theorem setupInit_fields (bl : Beamline) (e d oopv ipv tl : ℝ) (rock : Option RockingAngle)
    (px py : ℝ) (s : Setup)
    (hinit : setupInit bl (some e) (some d) (some oopv) (some ipv) (some tl) rock (some px)
      (some py) = .ok s) :
    s = { beamline := bl, energy := some e, distance := some d, outofplaneAngle := some oopv,
          inplaneAngle := some ipv, tiltAngle := some tl, rockingAngle := rock,
          pixelX := some px, pixelY := some py, grazingAttr := none } ∧
      0 < e ∧ 0 < d ∧ 0 < px ∧ 0 < py := by
  simp only [setupInit, energySetter, distanceSetter, pixelXSetter, pixelYSetter] at hinit
  by_cases he : e ≤ 0
  · simp [he] at hinit
  by_cases hd : d ≤ 0
  · simp [he, hd] at hinit
  by_cases hx : px ≤ 0
  · simp [he, hd, hx] at hinit
  by_cases hy : py ≤ 0
  · simp [he, hd, hx, hy] at hinit
  simp [he, hd, hx, hy] at hinit
  exact ⟨hinit.symm, lt_of_not_le he, lt_of_not_le hd, lt_of_not_le hx, lt_of_not_le hy⟩

/-- An instance whose numeric attributes are set but whose `grazing_angle`
attribute is missing makes `update_coords` fail with `AttributeError` at line
592, for every array shape and argument values. -/
theorem updateCoords_attr_error_of_no_grazing (s : Setup) (e distv oopv ipv : ℝ)
    (hE : s.energy = some e) (hE0 : e ≠ 0) (hD : s.distance = some distv)
    (hOop : s.outofplaneAngle = some oopv) (hIp : s.inplaneAngle = some ipv)
    (hG : s.grazingAttr = none) (shape : ℕ × ℕ × ℕ) (ta : Option ℝ) (pxa pya : ℝ) :
    s.updateCoords shape ta (some pxa) (some pya) = .error .attributeError := by
  simp only [Setup.updateCoords, Setup.wavelengthProp, hE, hD, hOop, hIp, hG, if_neg hE0]

/-- C2, amended: every instance built by the unified `Setup` constructor whose
numeric parameters are set (so that the reads at lines 586-591 succeed) makes
`update_coords` raise `AttributeError` from the `self.grazing_angle` read at
line 592 — the attribute is never assigned by `__init__` and the class defines
none — and hence `voxel_sizes`, `orthogonalize_vector`, `orthogonalize` and
`detector_frame`, which all delegate to `update_coords`, raise it too, for
every array shape and argument values.  (An instance with an unset energy or
distance raises `TypeError` earlier instead, which is the correction to the
claimed unconditional quantification.) -/
theorem setup_methods_attribute_error
    (bl : Beamline) (e d oopv ipv tl : ℝ) (rock : Option RockingAngle) (px py : ℝ)
    (s : Setup) (shape : ℕ × ℕ × ℕ) (ta pxa pya : ℝ) (vec : ℝ × ℝ × ℝ) (obj : Arr3) (w : ℝ)
    (hinit : setupInit bl (some e) (some d) (some oopv) (some ipv) (some tl) rock (some px)
      (some py) = .ok s) :
    s.updateCoords shape (some ta) (some pxa) (some pya) = .error .attributeError ∧
    s.voxelSizes shape (some ta) (some pxa) (some pya) = .error .attributeError ∧
    s.orthogonalizeVector vec shape (some ta) (some pxa) (some pya) = .error .attributeError ∧
    s.orthogonalize obj none none = .error .attributeError ∧
    s.detectorFrame obj (.scalar w) = .error .attributeError := by
  obtain ⟨rfl, he, hd, hx, hy⟩ := setupInit_fields bl e d oopv ipv tl rock px py s hinit
  have hupd := updateCoords_attr_error_of_no_grazing
    { beamline := bl, energy := some e, distance := some d, outofplaneAngle := some oopv,
      inplaneAngle := some ipv, tiltAngle := some tl, rockingAngle := rock,
      pixelX := some px, pixelY := some py, grazingAttr := none }
    e d oopv ipv rfl (ne_of_gt he) rfl rfl rfl rfl
  refine ⟨hupd shape (some ta) pxa pya, ?_, ?_, ?_, ?_⟩
  · rw [Setup.voxelSizes, hupd shape (some ta) pxa pya]
  · rw [Setup.orthogonalizeVector, hupd shape (some ta) pxa pya]
  · rw [Setup.orthogonalize]
    simp only [Setup.voxelSizes, hupd obj.shape (some |tl|) px py]
  · rw [Setup.detectorFrame, detFrameCore, hupd obj.shape (some tl) px py]

/-- Witness for C2 at the concrete scenario instance. -/
theorem setup_methods_attribute_error_witness :
    scenarioSetup.updateCoords (41, 256, 256) (some 0.01) (some 110e-6) (some 110e-6) =
      .error .attributeError ∧
    scenarioSetup.detectorFrame ⟨(2, 2, 2), fun _ _ _ => 0⟩ (.scalar 1) =
      .error .attributeError := by
  have h := setup_methods_attribute_error .ID01 8800 7.25 0 7.248 0.01 (some .inplane)
    110e-6 110e-6 scenarioSetup (41, 256, 256) 0.01 110e-6 110e-6 (0, 0, 0)
    ⟨(2, 2, 2), fun _ _ _ => 0⟩ 1
    (by simp only [setupInit, energySetter, distanceSetter, pixelXSetter, pixelYSetter]
        norm_num [scenarioSetup])
  exact ⟨h.1, h.2.2.2.2⟩

/-- Inverse of the transfer matrix of an invertible construction matrix. -/
theorem pyRecip_inv (M : Matrix (Fin 3) (Fin 3) ℝ) (h : M.det ≠ 0) :
    (pyRecip M)⁻¹ = (2 * pi)⁻¹ • M.transpose := by
  have hu : IsUnit M.det := isUnit_iff_ne_zero.mpr h
  have h2 : (2 * Real.pi : ℝ) ≠ 0 := by positivity
  rw [pyRecip]
  apply Matrix.inv_eq_right_inv
  rw [Matrix.smul_mul, Matrix.mul_smul, smul_smul, ← Matrix.transpose_mul,
    Matrix.mul_nonsing_inv M hu, Matrix.transpose_one, mul_inv_cancel₀ h2, one_smul]

/-- Running `update_coords` on an instance with a grazing attribute and a nonzero
energy reduces to the branch table plus inversion, for any argument values. -/
theorem updateCoords_fields (s : Setup) (e distv oopv ipv gz : ℝ) (shape : ℕ × ℕ × ℕ)
    (ta pxa pya : ℝ) (hE : s.energy = some e) (hE0 : e ≠ 0) (hD : s.distance = some distv)
    (hOop : s.outofplaneAngle = some oopv) (hIp : s.inplaneAngle = some ipv)
    (hG : s.grazingAttr = some gz) :
    s.updateCoords shape (some ta) (some pxa) (some pya) =
      (npLinalgInv3 (buildMymatrix s.beamline s.rockingAngle (radians gz) (radians oopv)
        (radians ipv) (radians ta) shape.1 shape.2.1 shape.2.2
        (12.398 * 1e-7 / e * 1e9 * (distv * 1e9)) (pxa * 1e9) (pya * 1e9)
        (distv * 1e9))).map fun m => (2 * pi) • m.transpose := by
  simp only [Setup.updateCoords, Setup.wavelengthProp, hE, hD, hOop, hIp, hG, if_neg hE0]

/-- C8, amended: whenever `orthogonalize` gets past `update_coords` (grazing
attribute present, numeric attributes set, non-singular construction matrix,
positive caller-supplied voxel size, uncropped object) it returns — with no
error — the pair of the resampled array and the voxel size; the resampled
array always has the shape (and, by the typing of the embedding, the element
type) of the input object, and every target grid point whose mapped source
coordinate falls outside the source grid domain receives the fill value 0. -/
theorem orthogonalize_success_properties (s : Setup) (e distv oopv ipv gz tl pxv pyv : ℝ)
    (obj : Arr3) (v : ℝ × ℝ × ℝ)
    (hE : s.energy = some e) (hE0 : e ≠ 0) (hD : s.distance = some distv)
    (hOop : s.outofplaneAngle = some oopv) (hIp : s.inplaneAngle = some ipv)
    (hG : s.grazingAttr = some gz) (hTl : s.tiltAngle = some tl) (hTl0 : 0 ≤ tl)
    (hPx : s.pixelX = some pxv) (hPy : s.pixelY = some pyv)
    (hv1 : 0 < v.1) (hv2 : 0 < v.2.1) (hv3 : 0 < v.2.2)
    (hdet : (buildMymatrix s.beamline s.rockingAngle (radians gz) (radians oopv) (radians ipv)
      (radians tl) obj.shape.1 obj.shape.2.1 obj.shape.2.2
      (12.398 * 1e-7 / e * 1e9 * (distv * 1e9)) (pxv * 1e9) (pyv * 1e9)
      (distv * 1e9)).det ≠ 0) :
    s.orthogonalize obj none (some v) =
      .ok (orthoResample ((pyRecip (buildMymatrix s.beamline s.rockingAngle (radians gz)
        (radians oopv) (radians ipv) (radians tl) obj.shape.1 obj.shape.2.1 obj.shape.2.2
        (12.398 * 1e-7 / e * 1e9 * (distv * 1e9)) (pxv * 1e9) (pyv * 1e9)
        (distv * 1e9)))⁻¹) v obj, v) ∧
    (∀ im2 vox2 obj2, (orthoResample im2 vox2 obj2).shape = obj2.shape) ∧
    (∀ (im2 : Matrix (Fin 3) (Fin 3) ℝ) (vox2 : ℝ × ℝ × ℝ) (obj2 : Arr3) (i j k : ℤ),
      outOfGrid obj2.shape.1 obj2.shape.2.1 obj2.shape.2.2 1 1 1
        (im2 2 0 * ((orthogonalizeGrid obj2.shape.2.2 k : ℝ) * vox2.2.2) +
          im2 2 1 * ((orthogonalizeGrid obj2.shape.2.1 j : ℝ) * vox2.2.1) +
          im2 2 2 * ((orthogonalizeGrid obj2.shape.1 i : ℝ) * vox2.1))
        (im2 1 0 * ((orthogonalizeGrid obj2.shape.2.2 k : ℝ) * vox2.2.2) +
          im2 1 1 * ((orthogonalizeGrid obj2.shape.2.1 j : ℝ) * vox2.2.1) +
          im2 1 2 * ((orthogonalizeGrid obj2.shape.1 i : ℝ) * vox2.1))
        (im2 0 0 * ((orthogonalizeGrid obj2.shape.2.2 k : ℝ) * vox2.2.2) +
          im2 0 1 * ((orthogonalizeGrid obj2.shape.2.1 j : ℝ) * vox2.2.1) +
          im2 0 2 * ((orthogonalizeGrid obj2.shape.1 i : ℝ) * vox2.1)) →
      (orthoResample im2 vox2 obj2).data i j k = 0) := by
  have hM := updateCoords_fields s e distv oopv ipv gz obj.shape tl pxv pyv hE hE0 hD hOop
    hIp hG
  have hupd : s.updateCoords obj.shape (some tl) (some pxv) (some pyv) =
      .ok (pyRecip (buildMymatrix s.beamline s.rockingAngle (radians gz) (radians oopv)
        (radians ipv) (radians tl) obj.shape.1 obj.shape.2.1 obj.shape.2.2
        (12.398 * 1e-7 / e * 1e9 * (distv * 1e9)) (pxv * 1e9) (pyv * 1e9)
        (distv * 1e9))) := by
    rw [hM]
    simp only [npLinalgInv3, if_neg hdet, Except.map]
    rfl
  have hvox : s.voxelSizes obj.shape (some tl) (some pxv) (some pyv) =
      .ok (voxelTripleOf ((2 * pi) • ((pyRecip (buildMymatrix s.beamline s.rockingAngle
        (radians gz) (radians oopv) (radians ipv) (radians tl) obj.shape.1 obj.shape.2.1
        obj.shape.2.2 (12.398 * 1e-7 / e * 1e9 * (distv * 1e9)) (pxv * 1e9) (pyv * 1e9)
        (distv * 1e9)))⁻¹).transpose)) := by
    rw [Setup.voxelSizes, hupd]
    simp only [npLinalgInv3, if_neg (det_pyRecip_ne_zero _ hdet)]
  refine ⟨?_, fun im2 vox2 obj2 => rfl, fun im2 vox2 obj2 i j k h => ?_⟩
  · rw [Setup.orthogonalize]
    simp only [hTl, hPx, hPy, abs_of_nonneg hTl0]
    rw [hvox]
    simp only [ne_eq, not_true_eq_false, false_or, or_self, if_false, if_neg]
    rw [orthoCore, if_pos ⟨hv1, hv2, hv3⟩, orthoCore2, hupd]
    simp only [npLinalgInv3, if_neg (det_pyRecip_ne_zero _ hdet)]
  · exact if_pos h

/-- A fully configured legacy-style attribute state (grazing angle present)
with wavelength 1 nm, distance 1 nm, pixel 1 nm, out-of-plane angle 90
degrees, used to exercise a successful `orthogonalize` run. -/
noncomputable def wSetup : Setup :=
  { beamline := .ID01, energy := some 1239.8, distance := some 1e-9, outofplaneAngle := some 90,
    inplaneAngle := some 0, tiltAngle := some (180 / pi), rockingAngle := some .outofplane,
    pixelX := some 1e-9, pixelY := some 1e-9, grazingAttr := some 0 }

/-- A 2x2x2 object array. -/
noncomputable def wObj : Arr3 := ⟨(2, 2, 2), fun _ _ _ => 0⟩

/-- The construction matrix of the `wSetup` geometry for a 2x2x2 array. -/
noncomputable def wM : Matrix (Fin 3) (Fin 3) ℝ :=
  buildMymatrix .ID01 (some .outofplane) (radians 0) (radians 90) (radians 0)
    (radians (180 / pi)) 2 2 2 (12.398 * 1e-7 / 1239.8 * 1e9 * (1e-9 * 1e9)) (1e-9 * 1e9)
    (1e-9 * 1e9) (1e-9 * 1e9)

theorem wM_eq : wM = (2 * pi) • Matrix.of ![![2, 0, 0], ![0, 0, 2], ![0, 2, 2]] := by
  have h90 : radians 90 = pi / 2 := by
    rw [radians]
    ring
  have h0 : radians 0 = 0 := by simp [radians]
  have ht : radians (180 / pi) = 1 := by
    rw [radians]
    field_simp
  ext i j
  fin_cases i <;> fin_cases j <;>
    simp [wM, buildMymatrix, colMat, h90, h0, ht, Real.cos_pi_div_two,
      Real.sin_pi_div_two, Matrix.vecHead, Matrix.vecTail] <;>
    norm_num

theorem wM_det_ne : wM.det ≠ 0 := by
  have h8 : (Matrix.of ![![(2 : ℝ), 0, 0], ![0, 0, 2], ![0, 2, 2]]).det = -8 := by
    simp [Matrix.det_fin_three]
    norm_num
  rw [wM_eq, Matrix.det_smul, h8]
  simp [Real.pi_ne_zero]

theorem wM_pyRecip_inv :
    (pyRecip wM)⁻¹ = (Matrix.of ![![(2 : ℝ), 0, 0], ![0, 0, 2], ![0, 2, 2]]).transpose := by
  have h2 : (2 * Real.pi : ℝ) ≠ 0 := by positivity
  rw [pyRecip_inv wM wM_det_ne, wM_eq, Matrix.transpose_smul, smul_smul,
    inv_mul_cancel₀ h2, one_smul]

/-- Witness for C8: a concrete successful `orthogonalize` run; the voxel size
(10, 10, 10) maps the target grid point (0, 0, 0) far outside the 2x2x2 source
grid, so the output value there is the fill value 0. -/
theorem orthogonalize_success_properties_witness :
    wSetup.orthogonalize wObj none (some (10, 10, 10)) =
      .ok (orthoResample ((pyRecip wM)⁻¹) (10, 10, 10) wObj, (10, 10, 10)) ∧
    (orthoResample ((pyRecip wM)⁻¹) (10, 10, 10) wObj).shape = (2, 2, 2) ∧
    (orthoResample ((pyRecip wM)⁻¹) (10, 10, 10) wObj).data 0 0 0 = 0 := by
  have hMw : buildMymatrix wSetup.beamline wSetup.rockingAngle (radians 0) (radians 90)
      (radians 0) (radians (180 / pi)) wObj.shape.1 wObj.shape.2.1 wObj.shape.2.2
      (12.398 * 1e-7 / 1239.8 * 1e9 * (1e-9 * 1e9)) (1e-9 * 1e9) (1e-9 * 1e9)
      (1e-9 * 1e9) = wM := rfl
  have h := orthogonalize_success_properties wSetup 1239.8 1e-9 90 0 0 (180 / pi) 1e-9 1e-9
    wObj (10, 10, 10) rfl (by norm_num) rfl rfl rfl rfl rfl (by positivity) rfl rfl
    (by norm_num) (by norm_num) (by norm_num) (by rw [hMw]; exact wM_det_ne)
  rw [hMw] at h
  have hg : ((orthogonalizeGrid 2 0 : ℤ) : ℝ) = -1 := by
    norm_num [orthogonalizeGrid, pyFloorDiv, show Int.fdiv (-2) 2 = -1 from by decide]
  have hgs : ((gridStart 2 : ℤ) : ℝ) = -1 := by
    norm_num [gridStart, pyFloorDiv, show Int.fdiv (-2) 2 = -1 from by decide]
  refine ⟨h.1, h.2.1 _ _ _, h.2.2 _ _ _ 0 0 0 ?_⟩
  left
  rw [wM_pyRecip_inv]
  show (Matrix.of ![![(2 : ℝ), 0, 0], ![0, 0, 2], ![0, 2, 2]]).transpose 2 0 *
      ((orthogonalizeGrid wObj.shape.2.2 0 : ℝ) * 10) + _ * _ + _ * _ < _
  simp only [Matrix.transpose_apply, Matrix.of_apply, Matrix.cons_val_zero,
    Matrix.cons_val_one, Matrix.head_cons, Matrix.vecHead, Matrix.vecTail]
  norm_num [hg, hgs, show wObj.shape = (2, 2, 2) from rfl, Matrix.vecHead, Matrix.vecTail]

/-- C8, counterexample: on the unified `Setup` class `orthogonalize` never
returns an array at all: the concrete scenario instance with a 2x2x2 object
raises `AttributeError` (from `update_coords` inside the initial
`voxel_sizes` call) instead of returning a resampled array. -/
theorem orthogonalize_scenario_raises :
    scenarioSetup.orthogonalize ⟨(2, 2, 2), fun _ _ _ => 0⟩ none none =
      .error .attributeError := by
  have hupd := updateCoords_attr_error_of_no_grazing scenarioSetup 8800 7.25 0 7.248 rfl
    (by norm_num) rfl rfl rfl rfl
  rw [Setup.orthogonalize]
  simp only [show scenarioSetup.tiltAngle = some 0.01 from rfl,
    show scenarioSetup.pixelX = some 110e-6 from rfl,
    show scenarioSetup.pixelY = some 110e-6 from rfl, Setup.voxelSizes]
  rw [hupd]

/-- One rectangular slice assignment `a[r0:r1, c0:c1] = val` on a 2-D array
modelled as a total function on integer indices. -/
def setRect (r0 r1 c0 c1 : ℤ) (val : ℚ) (a : ℤ → ℤ → ℚ) : ℤ → ℤ → ℚ :=
  fun i j => if (r0 ≤ i ∧ i < r1) ∧ (c0 ≤ j ∧ j < c1) then val else a i j

/-- Data preprocessing of `mask_detector` (lines 1761-1781): optional
flatfield multiplication, background subtraction and hot-pixel zeroing, in
that order. -/
def maskPrep (flat bg hot : Option (ℤ → ℤ → ℚ)) (d : ℤ → ℤ → ℚ) : ℤ → ℤ → ℚ :=
  let d1 := match flat with
    | none => d
    | some f => fun i j => f i j * d i j
  let d2 := match bg with
    | none => d1
    | some b => fun i j => d1 i j - b i j
  match hot with
  | none => d2
  | some hp => fun i j => if hp i j = 1 then 0 else d2 i j

/-- Mask preprocessing of `mask_detector` (lines 1776-1781): hot pixels are
marked with 1. -/
def maskPrepMask (hot : Option (ℤ → ℤ → ℚ)) (m : ℤ → ℤ → ℚ) : ℤ → ℤ → ℚ :=
  match hot with
  | none => m
  | some hp => fun i j => if hp i j = 1 then 1 else m i j

/-- The Eiger2M gap zeroing of the data (lines 1784-1797), innermost
application first, so the source statements run top to bottom.  Line 1789 is
`data[511: 552, :0] = 0`: its column slice `:0` is empty, so that statement
assigns nothing — transcribed as the empty rectangle `0 ≤ j < 0`. -/
def eiger2MDataGaps (rows cols : ℤ) (d : ℤ → ℤ → ℚ) : ℤ → ℤ → ℚ :=
  setRect 1649 1910 620 628 0 <|
  setRect 1214 1298 481 482 0 <|
  setRect 1248 1290 478 479 0 <|
  setRect 1905 1909 0 cols 0 <|
  setRect 1611 1652 0 cols 0 <|
  setRect 1355 1359 0 cols 0 <|
  setRect 1061 1102 0 cols 0 <|
  setRect 804 809 0 cols 0 <|
  setRect 511 552 0 0 0 <|
  setRect 255 259 0 cols 0 <|
  setRect 0 257 72 80 0 <|
  setRect 0 rows 771 775 0 <|
  setRect 0 rows 513 517 0 <|
  setRect 0 rows 255 259 0 d

/-- The Eiger2M gap marking of the mask (lines 1799-1812); here line 1804 is
`mask[511: 552, :] = 1` with the full column slice. -/
def eiger2MMaskGaps (rows cols : ℤ) (m : ℤ → ℤ → ℚ) : ℤ → ℤ → ℚ :=
  setRect 1649 1910 620 628 1 <|
  setRect 1214 1298 481 482 1 <|
  setRect 1248 1290 478 479 1 <|
  setRect 1905 1909 0 cols 1 <|
  setRect 1611 1652 0 cols 1 <|
  setRect 1355 1359 0 cols 1 <|
  setRect 1061 1102 0 cols 1 <|
  setRect 804 809 0 cols 1 <|
  setRect 511 552 0 cols 1 <|
  setRect 255 259 0 cols 1 <|
  setRect 0 257 72 80 1 <|
  setRect 0 rows 771 775 1 <|
  setRect 0 rows 513 517 1 <|
  setRect 0 rows 255 259 1 m

/-- Model of `Detector.mask_detector` for `name = Eiger2M` on a `rows x cols` data and
mask pair (lines 1740-1816): preprocessing, the gap table, then the hot-pixel
threshold `data > 1e6 * nb_img` — the mask update at line 1815 uses the
pre-threshold data, then line 1816 zeroes those data pixels.  Returns
`(data, mask)`. -/
def maskDetectorEiger2M (rows cols : ℤ) (nbImg : ℚ) (flat bg hot : Option (ℤ → ℤ → ℚ))
    (d m : ℤ → ℤ → ℚ) : (ℤ → ℤ → ℚ) × (ℤ → ℤ → ℚ) :=
  let d1 := eiger2MDataGaps rows cols (maskPrep flat bg hot d)
  let m1 := eiger2MMaskGaps rows cols (maskPrepMask hot m)
  (fun i j => if d1 i j > 1e6 * nbImg then 0 else d1 i j,
   fun i j => if d1 i j > 1e6 * nbImg then 1 else m1 i j)

/-- A slice assignment keeps a value the array already has everywhere. -/
theorem setRect_of_eq (r0 r1 c0 c1 : ℤ) (val : ℚ) (a : ℤ → ℤ → ℚ) (i j : ℤ)
    (h : a i j = val) : setRect r0 r1 c0 c1 val a i j = val := by
  simp only [setRect]
  split
  · rfl
  · exact h

/-- A slice assignment writes its value inside the rectangle. -/
theorem setRect_of_mem (r0 r1 c0 c1 : ℤ) (val : ℚ) (a : ℤ → ℤ → ℚ) (i j : ℤ)
    (h : (r0 ≤ i ∧ i < r1) ∧ (c0 ≤ j ∧ j < c1)) : setRect r0 r1 c0 c1 val a i j = val := by
  simp only [setRect]
  exact if_pos h

/-- C9: evaluation of the Eiger2M gap table.  On the full 2164 x 1030 sensor,
for any input data, mask, correction arrays and image count, column 256 and
row 256 end with data 0 and mask 1 — that part of the claim holds.  But the
claim that every range of the gap table gets data 0 and mask 1 fails: because
of the empty slice `data[511: 552, :0] = 0` at line 1789, pixel (511, 0) of an
all-ones input keeps data 1 while its mask is set to 1. -/
theorem eiger2M_gap_table :
    (∀ (nbImg : ℚ) (flat bg hot : Option (ℤ → ℤ → ℚ)) (d m : ℤ → ℤ → ℚ) (i : ℤ),
      0 ≤ i → i < 2164 →
      (maskDetectorEiger2M 2164 1030 nbImg flat bg hot d m).1 i 256 = 0 ∧
      (maskDetectorEiger2M 2164 1030 nbImg flat bg hot d m).2 i 256 = 1) ∧
    (∀ (nbImg : ℚ) (flat bg hot : Option (ℤ → ℤ → ℚ)) (d m : ℤ → ℤ → ℚ) (j : ℤ),
      0 ≤ j → j < 1030 →
      (maskDetectorEiger2M 2164 1030 nbImg flat bg hot d m).1 256 j = 0 ∧
      (maskDetectorEiger2M 2164 1030 nbImg flat bg hot d m).2 256 j = 1) ∧
    (maskDetectorEiger2M 2164 1030 1 none none none (fun _ _ => 1) (fun _ _ => 0)).1 511 0 = 1 ∧
    (maskDetectorEiger2M 2164 1030 1 none none none (fun _ _ => 1) (fun _ _ => 0)).2 511 0 = 1 := by
  have hd511 : eiger2MDataGaps 2164 1030 (maskPrep none none none fun _ _ => 1) 511 0 = 1 := by
    norm_num [eiger2MDataGaps, maskPrep, setRect]
  have hm511 : eiger2MMaskGaps 2164 1030 (maskPrepMask none fun _ _ => 0) 511 0 = 1 := by
    norm_num [eiger2MMaskGaps, maskPrepMask, setRect]
  refine ⟨?_, ?_, ?_, ?_⟩
  case refine_3 =>
    show (if eiger2MDataGaps 2164 1030 (maskPrep none none none fun _ _ => 1) 511 0 > 1e6 * 1
        then 0 else eiger2MDataGaps 2164 1030 (maskPrep none none none fun _ _ => 1) 511 0) = 1
    rw [hd511]
    norm_num
  case refine_4 =>
    show (if eiger2MDataGaps 2164 1030 (maskPrep none none none fun _ _ => 1) 511 0 > 1e6 * 1
        then 1 else eiger2MMaskGaps 2164 1030 (maskPrepMask none fun _ _ => 0) 511 0) = 1
    rw [hd511, hm511]
    norm_num
  · intro nbImg flat bg hot d m i hi0 hi1
    have hd1 : eiger2MDataGaps 2164 1030 (maskPrep flat bg hot d) i 256 = 0 := by
      rw [eiger2MDataGaps]
      iterate 13 apply setRect_of_eq
      exact setRect_of_mem _ _ _ _ _ _ _ _ ⟨⟨hi0, hi1⟩, by norm_num⟩
    have hm1 : eiger2MMaskGaps 2164 1030 (maskPrepMask hot m) i 256 = 1 := by
      rw [eiger2MMaskGaps]
      iterate 13 apply setRect_of_eq
      exact setRect_of_mem _ _ _ _ _ _ _ _ ⟨⟨hi0, hi1⟩, by norm_num⟩
    constructor
    · show (if eiger2MDataGaps 2164 1030 (maskPrep flat bg hot d) i 256 > 1e6 * nbImg
          then 0 else eiger2MDataGaps 2164 1030 (maskPrep flat bg hot d) i 256) = 0
      rw [hd1]
      split <;> rfl
    · show (if eiger2MDataGaps 2164 1030 (maskPrep flat bg hot d) i 256 > 1e6 * nbImg
          then 1 else eiger2MMaskGaps 2164 1030 (maskPrepMask hot m) i 256) = 1
      split
      · rfl
      · exact hm1
  · intro nbImg flat bg hot d m j hj0 hj1
    have hd1 : eiger2MDataGaps 2164 1030 (maskPrep flat bg hot d) 256 j = 0 := by
      rw [eiger2MDataGaps]
      iterate 9 apply setRect_of_eq
      exact setRect_of_mem _ _ _ _ _ _ _ _ ⟨by norm_num, hj0, hj1⟩
    have hm1 : eiger2MMaskGaps 2164 1030 (maskPrepMask hot m) 256 j = 1 := by
      rw [eiger2MMaskGaps]
      iterate 9 apply setRect_of_eq
      exact setRect_of_mem _ _ _ _ _ _ _ _ ⟨by norm_num, hj0, hj1⟩
    constructor
    · show (if eiger2MDataGaps 2164 1030 (maskPrep flat bg hot d) 256 j > 1e6 * nbImg
          then 0 else eiger2MDataGaps 2164 1030 (maskPrep flat bg hot d) 256 j) = 0
      rw [hd1]
      split <;> rfl
    · show (if eiger2MDataGaps 2164 1030 (maskPrep flat bg hot d) 256 j > 1e6 * nbImg
          then 1 else eiger2MMaskGaps 2164 1030 (maskPrepMask hot m) 256 j) = 1
      split
      · rfl
      · exact hm1

/-- Witness for C9 at concrete in-range indices. -/
theorem eiger2M_gap_table_witness :
    (maskDetectorEiger2M 2164 1030 1 none none none (fun _ _ => 5) (fun _ _ => 0)).1 10 256 = 0 ∧
    (maskDetectorEiger2M 2164 1030 1 none none none (fun _ _ => 5) (fun _ _ => 0)).2 10 256 = 1 ∧
    (maskDetectorEiger2M 2164 1030 1 none none none (fun _ _ => 5) (fun _ _ => 0)).1 256 10 = 0 ∧
    (maskDetectorEiger2M 2164 1030 1 none none none (fun _ _ => 5) (fun _ _ => 0)).2 256 10 = 1 :=
  ⟨(eiger2M_gap_table.1 1 none none none _ _ 10 (by norm_num) (by norm_num)).1,
   (eiger2M_gap_table.1 1 none none none _ _ 10 (by norm_num) (by norm_num)).2,
   (eiger2M_gap_table.2.1 1 none none none _ _ 10 (by norm_num) (by norm_num)).1,
   (eiger2M_gap_table.2.1 1 none none none _ _ 10 (by norm_num) (by norm_num)).2⟩

end BcdiVerify
